/-
  Verification of the ACPI table processing engine (acpiview inspector core
  and DynamicTables generator core) against its natural-language
  specification.

  The development shallowly embeds the C sources:
  * `parseAcpi` embeds `ParseAcpi` (AcpiParser.c), the generic table-driven
    field parser, together with its ambient state (indent counter, capture
    slots, output-sink events).
  * `acpiCrossValidatorAllUnique` / `acpiCrossValidatorRefsValid` embed the
    cross-structure validator (AcpiCrossValidator.c).
  * `validateReference` embeds the PPTT reference/cycle validator
    (PpttParser.c).
  * `validateFieldUnique` / `parseAcpiMadt` embed the MADT dispatcher and its
    post-loop cross checks (MadtParser.c).
  * `getNodeOffsetReferencedByToken`, `getSizeOfNodes` and `buildIortTable`
    embed the IORT generator's token-to-offset machinery (IortGenerator.c).
  * `verifyChecksum` embeds `VerifyChecksum` (AcpiParser.c).

  Machine integers are modelled as `Nat` with wrap-around written explicitly
  as `% u32` where UINT32 overflow can matter.  Byte buffers are `List Nat`
  (each byte < 256 in well-formed inputs).  The output sink (an external
  collaborator per the spec) is modelled as a serial append log of `Event`s
  carrying the severity, the format-string constant and the numeric / string
  arguments handed to the sink; formatting itself is outside the model.
-/
import Mathlib

namespace AcpiSpec

/-! ## Output sink events -/

/-- Severity tags of the output sink (AcpiViewLog): `good`, `info`, `warn`,
`bad`, `item`, `fatal`. -/
inductive AcpiLogKind
  | good
  | info
  | warn
  | bad
  | item
  | fatalKind
  deriving DecidableEq, Repr

/-- Error taxonomy values (`ACPI_ERROR_CSUM | VALUE | LENGTH | PARSE | CROSS`). -/
inductive AcpiErrKind
  | csum
  | value
  | length
  | parse
  | cross
  deriving DecidableEq, Repr

/-- One append to the output sink.  `log`/`err` carry the format-string
constant plus the numeric and string arguments that the C code passes to
`AcpiLog`/`AcpiError`.  `validatorRun` marks the invocation of a per-field
validator callback (identified by a numeric id) on a field at a table
position; the callbacks only append to the sink and never alter parser
state. -/
inductive Event
  | log (sev : AcpiLogKind) (msg : String) (args : List Nat) (strArgs : List String)
  | err (kind : AcpiErrKind) (msg : String) (args : List Nat) (strArgs : List String)
  | validatorRun (id : Nat) (pos : Nat)
  deriving DecidableEq, Repr

/-! ## Byte buffers and unaligned little-endian reads -/

/-- Little-endian read of `n` bytes of buffer `b` starting at index `i`
(models `ReadUnaligned16/32/64` and plain byte loads).  Out-of-range bytes
read as 0. -/
def leRead (b : List Nat) (i : Nat) : Nat → Nat
  | 0 => 0
  | n + 1 => b.getD i 0 + 256 * leRead b (i + 1) n

/-! ## The generic field parser (`ParseAcpi`, AcpiParser.c) -/

/-- 2^32; UINT32 arithmetic is written `% u32`. -/
def u32 : Nat := 4294967296

/-- One `ACPI_PARSER` descriptor: display name, byte length, declared byte
offset, optional Print format, optional custom print formatter (by id),
optional capture slot (`ItemPtr`, by slot id) and optional field validator
(by id).  The `Context` pointer is omitted: it is only ever handed back to
the validator callback. -/
structure AcpiParserField where
  nameStr : Option String
  length : Nat
  offset : Nat
  format : Option String
  printFormatter : Option Nat
  itemPtr : Option Nat
  fieldValidator : Option Nat
  deriving DecidableEq, Repr

/-- Ambient state threaded through the parser: the process-wide indent
counter `gIndent`, the capture slots (`slot id ↦ some tableIndex` for a
captured pointer, `none` for NULL), and the output sink log. -/
structure ParserState where
  gIndent : Nat
  slots : List (Nat × Option Nat)
  events : List Event
  deriving DecidableEq, Repr

/-- Write capture slot `s` (the `*Parser[Index].ItemPtr = ...` stores). -/
def setSlot (slots : List (Nat × Option Nat)) (s : Nat) (v : Option Nat) :
    List (Nat × Option Nat) :=
  (s, v) :: slots

/-- Read a capture slot; a slot never written holds NULL. -/
def getSlot (slots : List (Nat × Option Nat)) (s : Nat) : Option Nat :=
  (slots.lookup s).getD none

/-- `DumpAndValidate` (AcpiParser.c): print the field name, render the field
value through the custom formatter or the declared format (1/2/4/8-byte
reads; other lengths with a format are a malformed descriptor), then run the
field validator when consistency checking is on. -/
def dumpAndValidate (cc : Bool) (f : AcpiParserField) (tbl : List Nat)
    (pos : Nat) : List Event :=
  let nameEv := Event.log .info "PrintFieldName" [] [f.nameStr.getD ""]
  let renderEvs :=
    match f.printFormatter with
    | some fid => [Event.log .info "PrintFormatter" [fid, pos] []]
    | none =>
      match f.format with
      | some fmt =>
        if f.length = 1 ∨ f.length = 2 ∨ f.length = 4 ∨ f.length = 8 then
          [Event.log .info fmt [leRead tbl pos f.length] []]
        else
          [Event.log .bad "<Parse Error>" [] []]
      | none => []
  let validatorEvs :=
    match f.fieldValidator with
    | some vid => if cc then [Event.validatorRun vid pos] else []
    | none => []
  nameEv :: renderEvs ++ validatorEvs

/-- The descriptor loop of `ParseAcpi`.  `pos` is the table index of the
buffer start (the C `Ptr`), `bufLen` the buffer length, `off` the running
cumulative offset (a UINT32).  A descriptor whose range `(off + length)`
exceeds `bufLen` clears its capture slot and is skipped without advancing;
otherwise an offset-mismatch `parse` error is reported under consistency
checking, the field is traced, the capture slot is written, and the offset
advances by the declared length. -/
def parseAcpiLoop (trace cc : Bool) (asciiName : Option String)
    (tbl : List Nat) (pos bufLen : Nat) :
    List AcpiParserField → Nat → ParserState → Nat × ParserState
  | [], off, st => (off, st)
  | f :: rest, off, st =>
    if (off + f.length) % u32 > bufLen then
      let st1 :=
        match f.itemPtr with
        | some s => { st with slots := setSlot st.slots s none }
        | none => st
      parseAcpiLoop trace cc asciiName tbl pos bufLen rest off st1
    else
      let mismatchEvs :=
        if cc ∧ off ≠ f.offset then
          [Event.err .parse "Offset Mismatch" [off, f.offset]
            [asciiName.getD "", f.nameStr.getD ""]]
        else []
      let traceEvs := if trace then dumpAndValidate cc f tbl (pos + off) else []
      let st1 := { st with events := st.events ++ mismatchEvs ++ traceEvs }
      let st2 :=
        match f.itemPtr with
        | some s => { st1 with slots := setSlot st1.slots s (some (pos + off)) }
        | none => st1
      parseAcpiLoop trace cc asciiName tbl pos bufLen rest
        ((off + f.length) % u32) st2

/-- `ParseAcpi` (AcpiParser.c).  A zero-length buffer is refused with one
warning and nothing else happens.  Otherwise the indent counter is raised by
`indent`, an item line naming the table is traced, the descriptor loop runs,
and the indent counter is restored; the cumulative offset is returned. -/
def parseAcpi (trace cc : Bool) (indent : Nat) (asciiName : Option String)
    (tbl : List Nat) (pos bufLen : Nat) (fields : List AcpiParserField)
    (st : ParserState) : Nat × ParserState :=
  if bufLen = 0 then
    (0, { st with
          events := st.events ++
            [Event.log .warn "Will not parse zero-length buffer" [pos]
              [asciiName.getD "Unknown Item"]] })
  else
    let st1 := { st with gIndent := st.gIndent + indent }
    let st2 :=
      if trace ∧ asciiName.isSome then
        { st1 with events := st1.events ++
            [Event.log .item "TableName" [] [asciiName.getD ""]] }
      else st1
    let r := parseAcpiLoop trace cc asciiName tbl pos bufLen fields 0 st2
    (r.1, { r.2 with gIndent := r.2.gIndent - indent })

/-- Specification-side selection (claim C1): the declared lengths of exactly
those descriptors whose full byte range - cumulative offset plus declared
length - lies within the buffer length, the cumulative offset being the sum
of the lengths already selected. -/
def fittingLengths (bufLen : Nat) : List AcpiParserField → Nat → List Nat
  | [], _ => []
  | f :: rest, cum =>
    if cum + f.length ≤ bufLen then
      f.length :: fittingLengths bufLen rest (cum + f.length)
    else
      fittingLengths bufLen rest cum

/-! ## Cross-structure validator (AcpiCrossValidator.c) -/

/-- `ACPI_CROSS_ENTRY`: an owned copy of the sampled bytes, their size, the
owning structure's type tag and its byte offset from the start of the table.
The intrusive `LIST_ENTRY` link is implicit in the Lean list. -/
structure AcpiCrossEntry where
  buffer : List Nat
  size : Nat
  type : Nat
  offset : Nat
  deriving DecidableEq, Repr

/-- `AcpiCrossValidatorAdd`: append an entry holding a copy of `size` bytes
of `tbl` starting at `pos`, tagged `type`, recorded at table offset
`offset`. -/
def acpiCrossValidatorAdd (l : List AcpiCrossEntry) (tbl : List Nat)
    (pos size type offset : Nat) : List AcpiCrossEntry :=
  l ++ [{ buffer := (tbl.drop pos).take size, size := size, type := type,
          offset := offset }]

/-- The duplicate-report emitted by `AcpiCrossValidatorAllUnique` for one
matching pair: a `cross` error whose argument list carries both entries'
offsets (the sink receives `EntryA->Offset` and `EntryB->Offset`). -/
def dupCrossErr (structureName : String) (fieldName : String)
    (a b : AcpiCrossEntry) : Event :=
  Event.err .cross
    "structures A and B have the same field value" [a.offset, b.offset]
    [structureName, fieldName]

/-- Inner loop of `AcpiCrossValidatorAllUnique`: compare the fixed entry `a`
against every later entry; each comparator hit clears the all-unique flag
and emits one duplicate report. -/
def allUniqueInner (cmp : AcpiCrossEntry → AcpiCrossEntry → Int)
    (structureName fieldName : String) (a : AcpiCrossEntry) :
    List AcpiCrossEntry → Bool × List Event
  | [] => (true, [])
  | b :: rest =>
    let hit := cmp a b = 0
    let r := allUniqueInner cmp structureName fieldName a rest
    (!hit && r.1,
      (if hit then [dupCrossErr structureName fieldName a b] else []) ++ r.2)

/-- `AcpiCrossValidatorAllUnique`: run the comparator over every unordered
pair of entries (each outer entry against all later ones); return whether
all were unique together with the emitted duplicate reports. -/
def acpiCrossValidatorAllUnique (l : List AcpiCrossEntry)
    (cmp : AcpiCrossEntry → AcpiCrossEntry → Int)
    (structureName fieldName : String) : Bool × List Event :=
  match l with
  | [] => (true, [])
  | a :: rest =>
    let r1 := allUniqueInner cmp structureName fieldName a rest
    let r2 := acpiCrossValidatorAllUnique rest cmp structureName fieldName
    (r1.1 && r2.1, r1.2 ++ r2.2)

/-- Specification-side: the ordered list of all unordered pairs of a list
(first component occurs before the second). -/
def allPairs : List AcpiCrossEntry → List (AcpiCrossEntry × AcpiCrossEntry)
  | [] => []
  | a :: rest => rest.map (fun b => (a, b)) ++ allPairs rest

/-- Specification-side: the pairs a comparator reports equal. -/
def duplicatePairs (cmp : AcpiCrossEntry → AcpiCrossEntry → Int)
    (l : List AcpiCrossEntry) : List (AcpiCrossEntry × AcpiCrossEntry) :=
  (allPairs l).filter (fun p => cmp p.1 p.2 = 0)

/-- `ACPI_VALID_REFS`: the flattened TypeCount x TypeCount validity matrix
(`IsValid[(From * TypeCount) + To]`), the type count, and a display name. -/
structure AcpiValidRefs where
  isValid : List Bool
  typeCount : Nat
  name : String
  deriving DecidableEq, Repr

/-- The entry-search loop of `AcpiCrossValidatorRefsValid`, with explicit
fuel.  The C loop tests the current entry against `ToOffset` and, on a
match, checks the type pair against the validity matrix and returns; the
loop body contains no `Entry = GetNextNode(...)` advance, so every
iteration re-examines the same first entry.  `none` means the fuel was
exhausted with the loop still spinning. -/
def refsValidLoop (vr : AcpiValidRefs) (fromOffset toOffset fromType : Nat)
    (e : AcpiCrossEntry) : Nat → Option (Bool × List Event)
  | 0 => none
  | fuel + 1 =>
    if e.offset = toOffset then
      let toType := e.type
      let ok := decide (toType < vr.typeCount) &&
        vr.isValid.getD (fromType * vr.typeCount + toType) false
      some (ok,
        if ok then [] else
          [Event.err .cross
            "reference between the two structure types is not allowed"
            [fromOffset, toOffset, fromType, toType] [vr.name]])
    else
      refsValidLoop vr fromOffset toOffset fromType e fuel

/-- `AcpiCrossValidatorRefsValid`: reject an out-of-range `FromType`, then a
self reference; with an empty list the search loop exits at once and the
reference is reported dangling; otherwise the search loop runs on the first
entry (see `refsValidLoop`). -/
def acpiCrossValidatorRefsValid (fuel : Nat) (refList : List AcpiCrossEntry)
    (vr : AcpiValidRefs) (fromOffset toOffset fromType : Nat) :
    Option (Bool × List Event) :=
  if vr.typeCount ≤ fromType then
    some (false,
      [Event.err .cross "structure of unrecognized type is making a reference"
        [fromType, fromOffset] [vr.name]])
  else if fromOffset = toOffset then
    some (false,
      [Event.err .cross "structure is making a reference to itself"
        [fromOffset] [vr.name]])
  else
    match refList.head? with
    | none =>
      some (false,
        [Event.err .cross "referenced structure does not exist"
          [fromOffset, toOffset] [vr.name]])
    | some e => refsValidLoop vr fromOffset toOffset fromType e fuel

/-! ## PPTT reference validation (PpttParser.c) -/

/-- Type tag byte of the structure copied into a cross entry
(`StructFound->Type`, byte 0 of the copied buffer). -/
def entryBufType (e : AcpiCrossEntry) : Nat := e.buffer.getD 0 0

/-- `Parent` / `Next Level of Cache` of the copied structure: both are
4-byte fields at offset 8 of their PPTT structure (`StructFound->Parent`). -/
def entryParent (e : AcpiCrossEntry) : Nat := leRead e.buffer 8 4

/-- `Flags.NodeIsALeaf` of a Processor Hierarchy structure: bit 3 of the
4-byte flags field at offset 4. -/
def entryNodeIsALeaf (e : AcpiCrossEntry) : Bool :=
  (leRead e.buffer 4 4).testBit 3

/-- First entry recorded at the given table offset (the find loops of
PpttParser.c walk `mRefList` front to back and stop at the first match). -/
def findRefEntry (l : List AcpiCrossEntry) (off : Nat) :
    Option AcpiCrossEntry :=
  l.find? (fun e => e.offset = off)

/-- One hop of the PPTT reference chain: look up the entry whose offset
equals the current structure's `Parent` field. -/
def chainStep (l : List AcpiCrossEntry) (e : AcpiCrossEntry) :
    Option AcpiCrossEntry :=
  findRefEntry l (entryParent e)

/-- The cycle-detection loop of `ValidateReference`: make up to `fuel` hops
(`fuel` is `RefCount`, the number of indexed structures); return `true`, the
loop-detected verdict, when every hop resolved, and `false` as soon as a
structure whose `Parent` resolves to no entry - a terminator - is reached. -/
def cycleLoop (l : List AcpiCrossEntry) : Nat → AcpiCrossEntry → Bool
  | 0, _ => true
  | fuel + 1, cur =>
    match chainStep l cur with
    | none => false
    | some nxt => cycleLoop l fuel nxt

/-- Specification-side chain iteration: the structure reached after `n`
hops, or `none` if the chain fell off the indexed set (reached a
terminator) on the way. -/
def chainSeq (l : List AcpiCrossEntry) : Nat → AcpiCrossEntry → Option AcpiCrossEntry
  | 0, e => some e
  | n + 1, e =>
    match chainStep l e with
    | none => none
    | some e' => chainSeq l n e'

/-- The `Reference loop detected` report of `ValidateReference`. -/
def loopDetectedErr : Event :=
  Event.err .cross "Reference loop detected" [] []

/-- `ValidateReference` (PpttParser.c): validator of the PPTT `Parent`
(Type 0) and `Next Level of Cache` (Type 1) fields.  `curType` is the type
tag of the referring structure (the captured
`*ProcessorTopologyStructureType`), `reference` the field value, `refList`
the cross-reference list of all indexed structures.  A reference of zero is
a terminator and always valid.  A reference that resolves to no entry is
reported, after which the C code carries on with `Found` still pointing at
the last entry examined (the list's last element); the buffer copy must be
of the same type as the referrer and must not be a leaf processor node.
Finally the chain of `Parent` references is followed for at most
`refList.length` hops (see `cycleLoop`); exhausting the hops emits
`Reference loop detected`. -/
def validateReference (curType reference : Nat)
    (refList : List AcpiCrossEntry) : List Event :=
  if reference = 0 then []
  else
    let found? := findRefEntry refList reference
    let notFoundEvs :=
      if found?.isNone then
        [Event.err .cross "Referenced offset does not contain a structure"
          [reference] []]
      else []
    match found?.or refList.getLast? with
    | none => notFoundEvs
    | some found =>
      if entryBufType found ≠ curType then
        notFoundEvs ++
          [Event.err .cross "structure type cannot reference structure type"
            [curType, entryBufType found] []]
      else if entryBufType found = 0 ∧ entryNodeIsALeaf found then
        notFoundEvs ++
          [Event.err .cross
            "May not reference a leaf Processor Hierarchy Node" [] []]
      else
        if cycleLoop refList refList.length found then
          notFoundEvs ++ [loopDetectedErr]
        else
          notFoundEvs

/-! ## Structure database and count validation (AcpiParser.c) -/

/-- `ACPI_STRUCT_HANDLER`: dedicated dispatcher function (by id), an
`ACPI_PARSER` field table, or neither (parsing unimplemented).  The C
struct holds two pointers of which at most one is non-NULL; `ParserFunc`
takes precedence. -/
inductive AcpiStructHandler
  | dispatchFunc (id : Nat)
  | fieldTable (fields : List AcpiParserField)
  | notImplemented
  deriving DecidableEq, Repr, Inhabited

/-- `ACPI_STRUCT_INFO`: name, ACPI type tag, architecture-compatibility
mask, mutable instance count, handler. -/
structure AcpiStructInfo where
  name : String
  type : Nat
  compatArch : Nat
  count : Nat
  handler : AcpiStructHandler
  deriving DecidableEq, Repr, Inhabited

/-- `ACPI_STRUCT_DATABASE`: display name plus entries ordered (and indexed)
by type tag. -/
structure AcpiStructDatabase where
  name : String
  entries : List AcpiStructInfo
  deriving DecidableEq, Repr

/-- Architecture-compatibility bits (`ARCH_COMPAT_*`). -/
def archCompatIA32 : Nat := 1
def archCompatX64 : Nat := 2
def archCompatARM : Nat := 4
def archCompatAARCH64 : Nat := 8
def archCompatRISCV64 : Nat := 16

/-- `IsAcpiStructTypeValid`: a type tag is valid when in range and its
compatibility mask intersects the build's architecture set.  The build set
is fixed by preprocessor conditionals in the C; it is a parameter
`buildMask` here (ARM/AARCH64 builds use
`archCompatARM ||| archCompatAARCH64`, every other build keeps the whole
mask, i.e. an all-ones `buildMask`). -/
def isAcpiStructTypeValid (buildMask : Nat) (type : Nat)
    (db : AcpiStructDatabase) : Bool :=
  if db.entries.length ≤ type then false
  else
    ((db.entries.getD type default).compatArch &&& buildMask) ≠ 0

/-- `ResetAcpiStructCounts`. -/
def resetAcpiStructCounts (db : AcpiStructDatabase) : AcpiStructDatabase :=
  { db with entries := db.entries.map (fun e => { e with count := 0 }) }

/-- The per-type body of the `ValidateAcpiStructCounts` loop: a compatible
type displays its instance count unconditionally; an incompatible type with
a non-zero count produces a `value` error and clears the all-valid flag; an
incompatible type with a zero count reports nothing. -/
def validateCountsLoop (buildMask : Nat) (db : AcpiStructDatabase) :
    Nat → List AcpiStructInfo → Bool × List Event
  | _, [] => (true, [])
  | type, e :: rest =>
    let r := validateCountsLoop buildMask db (type + 1) rest
    if isAcpiStructTypeValid buildMask type db then
      (r.1, Event.log .info "instance count" [e.count] [e.name] :: r.2)
    else if e.count > 0 then
      (false,
        Event.err .value
          "Structure is not valid for the target architecture"
          [e.count] [e.name] :: r.2)
    else
      r

/-- `ValidateAcpiStructCounts` (AcpiParser.c): print the table breakdown
header, then walk every type tag of the database. -/
def validateAcpiStructCounts (buildMask : Nat) (db : AcpiStructDatabase) :
    Bool × List Event :=
  let r := validateCountsLoop buildMask db 0 db.entries
  (r.1, Event.log .info "Table Breakdown" [] [] :: r.2)

/-! ## ParseAcpiStruct (AcpiParser.c) -/

/-- `ParseAcpiStruct`: look the type up in the database (unknown types are a
`value` error), log the `name[instance] (+0xoffset)` item line, increment
the instance count, then dispatch on the handler: a dedicated dispatcher
function is invoked on the structure (modelled as a `dispatchRun` marker in
the log, the MADT database has none), a field table drives `parseAcpi` with
trace on and the indent raised by the current `gIndent`, and a missing
handler is a fatal report. -/
def parseAcpiStruct (cc : Bool) (indent : Nat) (tbl : List Nat)
    (db : AcpiStructDatabase) (offset type length : Nat) (st : ParserState) :
    Bool × AcpiStructDatabase × ParserState :=
  if db.entries.length ≤ type then
    (false, db,
      { st with events := st.events ++
          [Event.err .value "Unknown structure type" [type] [db.name]] })
  else
    let e := db.entries.getD type default
    let st1 := { st with events := st.events ++
        [Event.log .item "StructItem" [e.count, offset] [e.name]] }
    let db1 := { db with
      entries := db.entries.set type { e with count := e.count + 1 } }
    match e.handler with
    | .dispatchFunc fid =>
      (true, db1, { st1 with events := st1.events ++
          [Event.validatorRun fid offset] })
    | .fieldTable fields =>
      (true, db1,
        (parseAcpi true cc (indent + st1.gIndent) none tbl offset length
          fields st1).2)
    | .notImplemented =>
      (false, db1, { st1 with events := st1.events ++
          [Event.log .fatalKind "Parsing of Structure is not implemented"
            [] [e.name]] })

/-! ## MADT parser (MadtParser.c) -/

/-- Capture slot ids for the `AcpiHdrInfo` sidecar (`PARSE_ACPI_HEADER`). -/
def slotHdrSignature : Nat := 0
def slotHdrLength : Nat := 1
def slotHdrRevision : Nat := 2
def slotHdrChecksum : Nat := 3
def slotHdrOemId : Nat := 4
def slotHdrOemTableId : Nat := 5
def slotHdrOemRevision : Nat := 6
def slotHdrCreatorId : Nat := 7
def slotHdrCreatorRevision : Nat := 8

/-- Capture slots of the local `MadtInterruptControllerType` /
`MadtInterruptControllerLength` variables. -/
def slotIntCtrlType : Nat := 10
def slotIntCtrlLength : Nat := 11

/-- Validator function ids. -/
def vidGicdSystemVectorBase : Nat := 1
def vidSpeOverflowInterrupt : Nat := 2

/-- Print formatter function ids (`Dump4Chars` etc.). -/
def fmtDump4Chars : Nat := 1
def fmtDump6Chars : Nat := 2
def fmtDump8Chars : Nat := 3
def fmtDump3Chars : Nat := 4

/-- `PARSE_ACPI_HEADER(&AcpiHdrInfo)`: the nine descriptor rows of the
standard ACPI description header. -/
def acpiHeaderFields : List AcpiParserField := [
  ⟨some "Signature", 4, 0, none, some fmtDump4Chars, some slotHdrSignature, none⟩,
  ⟨some "Length", 4, 4, some "%d", none, some slotHdrLength, none⟩,
  ⟨some "Revision", 1, 8, some "%d", none, some slotHdrRevision, none⟩,
  ⟨some "Checksum", 1, 9, some "0x%X", none, some slotHdrChecksum, none⟩,
  ⟨some "Oem ID", 6, 10, none, some fmtDump6Chars, some slotHdrOemId, none⟩,
  ⟨some "Oem Table ID", 8, 16, none, some fmtDump8Chars, some slotHdrOemTableId, none⟩,
  ⟨some "Oem Revision", 4, 24, some "0x%X", none, some slotHdrOemRevision, none⟩,
  ⟨some "Creator ID", 4, 28, none, some fmtDump4Chars, some slotHdrCreatorId, none⟩,
  ⟨some "Creator Revision", 4, 32, some "0x%X", none, some slotHdrCreatorRevision, none⟩]

/-- The `MadtParser` descriptor array: ACPI header plus the MADT-specific
fields. -/
def madtFields : List AcpiParserField :=
  acpiHeaderFields ++ [
  ⟨some "Local Interrupt Controller Address", 4, 36, some "0x%x", none, none, none⟩,
  ⟨some "Flags", 4, 40, some "0x%x", none, none, none⟩]

/-- `MadtInterruptControllerHeaderParser`: type and length are captured. -/
def madtIntCtrlHeaderFields : List AcpiParserField := [
  ⟨none, 1, 0, none, none, some slotIntCtrlType, none⟩,
  ⟨some "Length", 1, 1, none, none, some slotIntCtrlLength, none⟩,
  ⟨some "Reserved", 2, 2, none, none, none, none⟩]

/-- `GicCParser` (GICC Interrupt Controller Structure, type 0x0B). -/
def gicCFields : List AcpiParserField := [
  ⟨some "Type", 1, 0, some "0x%x", none, none, none⟩,
  ⟨some "Length", 1, 1, some "%d", none, none, none⟩,
  ⟨some "Reserved", 2, 2, some "0x%x", none, none, none⟩,
  ⟨some "CPU Interface Number", 4, 4, some "0x%x", none, none, none⟩,
  ⟨some "ACPI Processor UID", 4, 8, some "0x%x", none, none, none⟩,
  ⟨some "Flags", 4, 12, some "0x%x", none, none, none⟩,
  ⟨some "Parking Protocol Version", 4, 16, some "0x%x", none, none, none⟩,
  ⟨some "Performance Interrupt GSIV", 4, 20, some "0x%x", none, none, none⟩,
  ⟨some "Parked Address", 8, 24, some "0x%lx", none, none, none⟩,
  ⟨some "Physical Base Address", 8, 32, some "0x%lx", none, none, none⟩,
  ⟨some "GICV", 8, 40, some "0x%lx", none, none, none⟩,
  ⟨some "GICH", 8, 48, some "0x%lx", none, none, none⟩,
  ⟨some "VGIC Maintenance interrupt", 4, 56, some "0x%x", none, none, none⟩,
  ⟨some "GICR Base Address", 8, 60, some "0x%lx", none, none, none⟩,
  ⟨some "MPIDR", 8, 68, some "0x%lx", none, none, none⟩,
  ⟨some "Processor Power Efficiency Class", 1, 76, some "0x%x", none, none, none⟩,
  ⟨some "Reserved", 1, 77, some "0x%x", none, none, none⟩,
  ⟨some "SPE overflow Interrupt", 2, 78, some "0x%x", none, none,
    some vidSpeOverflowInterrupt⟩]

/-- `GicDParser` (GICD Interrupt Controller Structure, type 0x0C). -/
def gicDFields : List AcpiParserField := [
  ⟨some "Type", 1, 0, some "0x%x", none, none, none⟩,
  ⟨some "Length", 1, 1, some "%d", none, none, none⟩,
  ⟨some "Reserved", 2, 2, some "0x%x", none, none, none⟩,
  ⟨some "GIC ID", 4, 4, some "0x%x", none, none, none⟩,
  ⟨some "Physical Base Address", 8, 8, some "0x%lx", none, none, none⟩,
  ⟨some "System Vector Base", 4, 16, some "0x%x", none, none,
    some vidGicdSystemVectorBase⟩,
  ⟨some "GIC Version", 1, 20, some "%d", none, none, none⟩,
  ⟨some "Reserved", 3, 21, some "%x %x %x", some fmtDump3Chars, none, none⟩]

/-- `GicMSIFrameParser` (type 0x0D). -/
def gicMSIFrameFields : List AcpiParserField := [
  ⟨some "Type", 1, 0, some "0x%x", none, none, none⟩,
  ⟨some "Length", 1, 1, some "%d", none, none, none⟩,
  ⟨some "Reserved", 2, 2, some "0x%x", none, none, none⟩,
  ⟨some "MSI Frame ID", 4, 4, some "0x%x", none, none, none⟩,
  ⟨some "Physical Base Address", 8, 8, some "0x%lx", none, none, none⟩,
  ⟨some "Flags", 4, 16, some "0x%x", none, none, none⟩,
  ⟨some "SPI Count", 2, 20, some "%d", none, none, none⟩,
  ⟨some "SPI Base", 2, 22, some "0x%x", none, none, none⟩]

/-- `GicRParser` (type 0x0E). -/
def gicRFields : List AcpiParserField := [
  ⟨some "Type", 1, 0, some "0x%x", none, none, none⟩,
  ⟨some "Length", 1, 1, some "%d", none, none, none⟩,
  ⟨some "Reserved", 2, 2, some "0x%x", none, none, none⟩,
  ⟨some "Discovery Range Base Address", 8, 4, some "0x%lx", none, none, none⟩,
  ⟨some "Discovery Range Length", 4, 12, some "0x%x", none, none, none⟩]

/-- `GicITSParser` (type 0x0F). -/
def gicITSFields : List AcpiParserField := [
  ⟨some "Type", 1, 0, some "0x%x", none, none, none⟩,
  ⟨some "Length", 1, 1, some "%d", none, none, none⟩,
  ⟨some "Reserved", 2, 2, some "0x%x", none, none, none⟩,
  ⟨some "GIC ITS ID", 4, 4, some "0x%x", none, none, none⟩,
  ⟨some "Physical Base Address", 8, 8, some "0x%lx", none, none, none⟩,
  ⟨some "Reserved", 4, 16, some "0x%x", none, none, none⟩]

/-- A `MadtStructs` entry for the IA32/X64-only types whose parsing is not
implemented. -/
def madtNotImplEntry (name : String) (type : Nat) : AcpiStructInfo :=
  { name := name, type := type,
    compatArch := archCompatIA32 ||| archCompatX64, count := 0,
    handler := .notImplemented }

/-- `MadtStructs` / `MadtDatabase` (MadtParser.c): the sixteen interrupt
controller structure types, ordered by type tag. -/
def madtDatabase : AcpiStructDatabase :=
  { name := "Interrupt Controller Structure",
    entries := [
      madtNotImplEntry "Processor Local APIC" 0,
      madtNotImplEntry "I/O APIC" 1,
      madtNotImplEntry "Interrupt Source Override" 2,
      madtNotImplEntry "NMI Source" 3,
      madtNotImplEntry "Local APIC NMI" 4,
      madtNotImplEntry "Local APIC Address Override" 5,
      madtNotImplEntry "I/O SAPIC" 6,
      madtNotImplEntry "Local SAPIC" 7,
      madtNotImplEntry "Platform Interrupt Sources" 8,
      madtNotImplEntry "Processor Local x2APIC" 9,
      madtNotImplEntry "Local x2APIC NMI" 10,
      { name := "GICC", type := 11,
        compatArch := archCompatARM ||| archCompatAARCH64, count := 0,
        handler := .fieldTable gicCFields },
      { name := "GICD", type := 12,
        compatArch := archCompatARM ||| archCompatAARCH64, count := 0,
        handler := .fieldTable gicDFields },
      { name := "GIC MSI Frame", type := 13,
        compatArch := archCompatARM ||| archCompatAARCH64, count := 0,
        handler := .fieldTable gicMSIFrameFields },
      { name := "GICR", type := 14,
        compatArch := archCompatARM ||| archCompatAARCH64, count := 0,
        handler := .fieldTable gicRFields },
      { name := "GIC ITS", type := 15,
        compatArch := archCompatARM ||| archCompatAARCH64, count := 0,
        handler := .fieldTable gicITSFields }] }

/-- Modelled from the spec: `AssertMemberIntegrity` lives in AcpiViewLog.c,
which is not among the provided sources; per the spec's member-integrity
step, a member of the given size at the given offset must not overflow past
the buffer length; a violation is reported as a `length` error and stops
the iteration.  Returns `true` on failure, like the C helper. -/
def assertMemberIntegrity (offset size bufLen : Nat) : Bool :=
  offset + size > bufLen

/-- The `length` error `assertMemberIntegrity` reports on failure. -/
def memberIntegrityErr (offset size : Nat) : Event :=
  Event.err .length "member overflows buffer" [offset, size] []

/-- How a phase of the embedded dispatcher ended: the C code either runs to
completion, returns early on a `parse`/`length` failure, or - when a
sub-structure declares length zero - loops forever (`fuelOut`). -/
inductive ParseOutcome
  | completed
  | aborted
  | fuelOut
  deriving DecidableEq, Repr

/-- The sub-structure iteration of `ParseAcpiMadt`: while the offset is
within the table, parse the interrupt-controller header in no-trace mode, a
NULL captured type/length pointer is a `parse` error that stops, member
integrity of the declared length is checked, `parseAcpiStruct` dispatches
the structure, and the offset advances by the declared length. -/
def madtLoop (cc : Bool) (tbl : List Nat) (tableLen : Nat) :
    Nat → Nat → AcpiStructDatabase → ParserState →
    AcpiStructDatabase × ParserState × ParseOutcome
  | 0, _, db, st => (db, st, .fuelOut)
  | fuel + 1, offset, db, st =>
    if tableLen ≤ offset then (db, st, .completed)
    else
      let r := parseAcpi false cc 0 none tbl offset (tableLen - offset)
        madtIntCtrlHeaderFields st
      let st1 := r.2
      match getSlot st1.slots slotIntCtrlType,
            getSlot st1.slots slotIntCtrlLength with
      | some tPos, some lPos =>
        let type := tbl.getD tPos 0
        let len := tbl.getD lPos 0
        if assertMemberIntegrity offset len tableLen then
          (db, { st1 with events := st1.events ++ [memberIntegrityErr offset len] },
            .aborted)
        else
          let r2 := parseAcpiStruct cc 2 tbl db offset type len st1
          madtLoop cc tbl tableLen fuel (offset + len) r2.2.1 r2.2.2
      | _, _ =>
        (db, { st1 with events := st1.events ++
            [Event.err .parse
              "Failed to read the Interrupt Controller Structure header"
              [] []] },
          .aborted)

/-- `GicIdCompare` (MadtParser.c).  The C function receives the two
`LIST_ENTRY*` pointers of `AcpiCrossValidatorAllUnique` and dereferences
them directly as `UINT32*`, i.e. it reads the first four bytes of the
intrusive list node (the low half of the `ForwardLink` pointer) rather
than the field bytes the entry carries.  Raw pointer values are below this
model; the comparator is given the reading the surrounding code intends -
compare the first four bytes of each entry's copied buffer.  Claims that
fail under this charitable reading fail a fortiori on the C. -/
def gicIdCompare (a b : AcpiCrossEntry) : Int :=
  if leRead a.buffer 0 4 = leRead b.buffer 0 4 then 0 else -1

/-- The collection walk of `ValidateFieldUnique`: re-parse each
interrupt-controller header (this pass skips the NULL and integrity checks;
the C comments that a successful pass has already happened) and collect the
`fieldSize` bytes at `fieldOffset` of every structure of the wanted type
that declares a length greater than `fieldOffset + fieldSize`.  The `Bool`
reports whether the walk ran to completion within the fuel. -/
def vfuCollect (cc : Bool) (tbl : List Nat) (tableLen : Nat)
    (metaType fieldOffset fieldSize : Nat) :
    Nat → Nat → ParserState → List AcpiCrossEntry →
    List AcpiCrossEntry × ParserState × Bool
  | 0, _, st, acc => (acc, st, false)
  | fuel + 1, structOffset, st, acc =>
    if tableLen ≤ structOffset then (acc, st, true)
    else
      let r := parseAcpi false cc 0 none tbl structOffset
        (tableLen - structOffset) madtIntCtrlHeaderFields st
      let st1 := r.2
      match getSlot st1.slots slotIntCtrlType,
            getSlot st1.slots slotIntCtrlLength with
      | some tPos, some lPos =>
        let type := tbl.getD tPos 0
        let len := tbl.getD lPos 0
        let acc1 :=
          if type = metaType ∧ len > fieldOffset + fieldSize then
            acpiCrossValidatorAdd acc tbl (structOffset + fieldOffset)
              fieldSize metaType (structOffset + fieldOffset)
          else acc
        vfuCollect cc tbl tableLen metaType fieldOffset fieldSize fuel
          (structOffset + len) st1 acc1
      | _, _ => (acc, st1, false)

/-- `ValidateFieldUnique` (MadtParser.c): collect the sampled field of every
structure of the given type, then run the uniqueness check over the
collected list with `GicIdCompare`.  Returns the updated state, whether all
values were unique, and whether the walk completed. -/
def validateFieldUnique (cc : Bool) (fuel : Nat) (tbl : List Nat)
    (tableLen structOffset fieldOffset fieldSize : Nat) (fieldName : String)
    (meta : AcpiStructInfo) (st : ParserState) : ParserState × Bool × Bool :=
  let c := vfuCollect cc tbl tableLen meta.type fieldOffset fieldSize fuel
    structOffset st []
  if c.2.2 then
    let u := acpiCrossValidatorAllUnique c.1 gicIdCompare meta.name fieldName
    ({ c.2.1 with events := c.2.1.events ++ u.2 }, u.1, true)
  else
    (c.2.1, true, false)

/-- `OFFSET_OF (EFI_ACPI_6_3_GIC_STRUCTURE, AcpiProcessorUid)`: the UID is
the 4-byte field at offset 8 of a GICC (after Type, Length, Reserved and
CPU Interface Number). -/
def offsetOfGiccUid : Nat := 8

/-- `FIELD_SIZE_OF (EFI_ACPI_6_3_GIC_STRUCTURE, AcpiProcessorUid)`. -/
def fieldSizeOfGiccUid : Nat := 4

/-- `OFFSET_OF` / `FIELD_SIZE_OF` of `GicItsId` in
`EFI_ACPI_6_3_GIC_ITS_STRUCTURE` (4-byte field at offset 4). -/
def offsetOfGicItsId : Nat := 4
def fieldSizeOfGicItsId : Nat := 4

/-- `OFFSET_OF` / `FIELD_SIZE_OF` of `GicMsiFrameId` in
`EFI_ACPI_6_3_GIC_MSI_FRAME_STRUCTURE` (4-byte field at offset 4). -/
def offsetOfGicMsiFrameId : Nat := 4
def fieldSizeOfGicMsiFrameId : Nat := 4

/-- The cross error of the GICD cardinality check
(`AcpiError (ACPI_ERROR_CROSS, L"Only one %a must be present", ...Name)`). -/
def gicdOnlyOneErr : Event :=
  Event.err .cross "Only one %a must be present" [] ["GICD"]

/-- GICD instance count recorded in a database shaped like `madtDatabase`
(type tag 0x0C). -/
def gicdCount (db : AcpiStructDatabase) : Nat :=
  (db.entries.getD 12 default).count

/-- The consistency block at the end of `ParseAcpiMadt`: report and
validate the structure counts, run the three field-uniqueness walks -
note the call site hands `FIELD_SIZE_OF` as the `FieldOffset` argument and
`OFFSET_OF` as the `FieldSize` argument, in that order - and finally
check that at most one GICD was counted.  If one of the walks fails to
complete (the C would spin forever), everything after it is not reached. -/
def madtConsistencyBlock (fuel : Nat) (buildMask : Nat) (tbl : List Nat)
    (tableLen bodyOffset : Nat) (db : AcpiStructDatabase)
    (st : ParserState) : ParserState × ParseOutcome :=
  let vac := validateAcpiStructCounts buildMask db
  let st1 := { st with events := st.events ++ vac.2 }
  let u1 := validateFieldUnique true fuel tbl tableLen bodyOffset
    fieldSizeOfGiccUid offsetOfGiccUid "ACPI Processor UID"
    (db.entries.getD 11 default) st1
  if !u1.2.2 then (u1.1, .fuelOut) else
  let u2 := validateFieldUnique true fuel tbl tableLen bodyOffset
    fieldSizeOfGicItsId offsetOfGicItsId "GIC ITS ID"
    (db.entries.getD 15 default) u1.1
  if !u2.2.2 then (u2.1, .fuelOut) else
  let u3 := validateFieldUnique true fuel tbl tableLen bodyOffset
    fieldSizeOfGicMsiFrameId offsetOfGicMsiFrameId "GIC MSI Frame ID"
    (db.entries.getD 13 default) u2.1
  if !u3.2.2 then (u3.1, .fuelOut) else
  if gicdCount db > 1 then
    ({ u3.1 with events := u3.1.events ++ [gicdOnlyOneErr] }, .completed)
  else
    (u3.1, .completed)

/-- Result of a `ParseAcpiMadt` run. -/
structure MadtResult where
  db : AcpiStructDatabase
  st : ParserState
  outcome : ParseOutcome
  deriving DecidableEq, Repr

/-- `ParseAcpiMadt` (MadtParser.c): return immediately when not tracing;
reset the instance counts, trace the MADT header fields, iterate the
interrupt controller structures, and - only if the iteration completed and
consistency checking is on - run the post-loop consistency block. -/
def parseAcpiMadt (fuel : Nat) (trace cc : Bool) (buildMask : Nat)
    (tbl : List Nat) (tableLen : Nat) (st : ParserState) : MadtResult :=
  if !trace then { db := madtDatabase, st := st, outcome := .completed }
  else
    let db0 := resetAcpiStructCounts madtDatabase
    let r0 := parseAcpi true cc 0 (some "MADT") tbl 0 tableLen madtFields st
    let bodyOffset := r0.1
    let l := madtLoop cc tbl tableLen fuel bodyOffset db0 r0.2
    match l.2.2 with
    | .completed =>
      if cc then
        let c := madtConsistencyBlock fuel buildMask tbl tableLen bodyOffset
          l.1 l.2.1
        { db := l.1, st := c.1, outcome := c.2 }
      else
        { db := l.1, st := l.2.1, outcome := .completed }
    | o => { db := l.1, st := l.2.1, outcome := o }

/-! ## Table checksum (AcpiParser.c / TableHelper.c) -/

/-- `VerifyChecksum` (AcpiParser.c): accumulate the UINT8 byte-sum of
`length` bytes; report `Table Checksum : OK` or a `csum` error when asked
to log; the checksum passes iff the sum is zero mod 256. -/
def verifyChecksum (log : Bool) (tbl : List Nat) (length : Nat) :
    Bool × List Event :=
  let checksum := (tbl.take length).sum % 256
  let evs :=
    if log then
      if checksum = 0 then [Event.log .good "Table Checksum : OK" [] []]
      else [Event.err .csum "Table Checksum" [checksum] []]
    else []
  (checksum = 0, evs)

/-- `CM_STD_OBJ_ACPI_TABLE_INFO` fields used by `AddAcpiHeader`. -/
structure CmStdObjAcpiTableInfo where
  acpiTableRevision : Nat
  oemTableId : Nat
  oemRevision : Nat
  deriving DecidableEq, Repr

/-- `CM_STD_OBJ_CONFIGURATION_MANAGER_INFO` fields used by `AddAcpiHeader`. -/
structure CfgMgrInfo where
  oemId : List Nat
  revision : Nat
  deriving DecidableEq, Repr

/-- Generator identity consulted by `AddAcpiHeader`. -/
structure AcpiTableGeneratorInfo where
  acpiTableSignature : Nat
  creatorId : Nat
  creatorRevision : Nat
  deriving DecidableEq, Repr

/-- The standard ACPI description header as written by the generator. -/
structure AcpiDescriptionHeader where
  signature : Nat
  length : Nat
  revision : Nat
  checksum : Nat
  oemId : List Nat
  oemTableId : Nat
  oemRevision : Nat
  creatorId : Nat
  creatorRevision : Nat
  deriving DecidableEq, Repr

/-- `AddAcpiHeader` (TableHelper.c): fill in the description header from
the generator, the table info and the configuration manager info.  The
`Checksum` field is written as zero; the helper computes no checksum. -/
def addAcpiHeader (gen : AcpiTableGeneratorInfo)
    (info : CmStdObjAcpiTableInfo) (cfg : CfgMgrInfo) (length : Nat) :
    AcpiDescriptionHeader :=
  { signature := gen.acpiTableSignature,
    length := length,
    revision := info.acpiTableRevision,
    checksum := 0,
    oemId := cfg.oemId.take 6,
    oemTableId :=
      if info.oemTableId ≠ 0 then info.oemTableId
      else leRead cfg.oemId 0 4 + gen.acpiTableSignature * (2 ^ 32),
    oemRevision :=
      if info.oemRevision ≠ 0 then info.oemRevision else cfg.revision,
    creatorId := gen.creatorId,
    creatorRevision := gen.creatorRevision }

/-- Modelled from the spec: the step that writes the final checksum byte is
the platform's ACPI-table-installation protocol, an external collaborator
whose source is not under src/ (`AddAcpiHeader` only zeroes the field).
Per the spec, after the header's checksum field has been written the
byte-sum (mod 256) of the whole buffer is zero, so the installer stores
into the checksum byte (offset 9 of the header) the value that cancels the
byte-sum of the rest of the buffer. -/
def installerWriteChecksum (tbl : List Nat) : List Nat :=
  let rest := (tbl.set 9 0).sum % 256
  tbl.set 9 ((256 - rest) % 256)

/-! ## IORT generator (IortGenerator.c) -/

/-- EFI status codes returned by the generator paths modelled here. -/
inductive EfiStatus
  | success
  | notFound
  | invalidParameter
  | outOfResources
  deriving DecidableEq, Repr

/-- `IORT_NODE_INDEXER`: one `(token, offset)` record populated during the
sizing pass (the `Object` pointer is not needed to resolve references). -/
structure IortNodeIndexerEntry where
  token : Nat
  offset : Nat
  deriving DecidableEq, Repr

/-- `GetNodeOffsetReferencedByToken` (IortGenerator.c): scan the node
indexer linearly; the first entry with a matching token yields its offset,
and running out of entries is `EFI_NOT_FOUND`. -/
def getNodeOffsetReferencedByToken :
    List IortNodeIndexerEntry → Nat → Except EfiStatus Nat
  | [], _ => .error .notFound
  | e :: rest, token =>
    if e.token = token then .ok e.offset
    else getNodeOffsetReferencedByToken rest token

/-- Packed sizes of the IO remapping structures (pragma pack(1)):
node header 16, ITS group node 20, root complex node 36 (revision D layout
with `MemoryAddressSize` and three reserved bytes), id table 20, table
header 48. -/
def sizeofIoRemappingItsNode : Nat := 20
def sizeofIoRemappingRcNode : Nat := 36
def sizeofIoRemappingIdTable : Nat := 20
def sizeofIoRemappingTable : Nat := 48

/-- `CM_ARM_ITS_GROUP_NODE`. -/
structure CmArmItsGroupNode where
  token : Nat
  itsIdCount : Nat
  itsIdToken : Nat
  deriving DecidableEq, Repr

/-- `CM_ARM_ID_MAPPING`. -/
structure CmArmIdMapping where
  inputBase : Nat
  numIds : Nat
  outputBase : Nat
  outputReferenceToken : Nat
  flags : Nat
  deriving DecidableEq, Repr

/-- `CM_ARM_ROOT_COMPLEX_NODE`. -/
structure CmArmRootComplexNode where
  token : Nat
  idMappingCount : Nat
  idMappingToken : Nat
  cacheCoherent : Nat
  allocationHints : Nat
  memoryAccessFlags : Nat
  atsAttribute : Nat
  pciSegmentNumber : Nat
  memoryAddressSize : Nat
  deriving DecidableEq, Repr

/-- `GetItsGroupNodeSize`. -/
def getItsGroupNodeSize (n : CmArmItsGroupNode) : Nat :=
  sizeofIoRemappingItsNode + 4 * n.itsIdCount

/-- `GetRootComplexNodeSize`. -/
def getRootComplexNodeSize (n : CmArmRootComplexNode) : Nat :=
  sizeofIoRemappingRcNode + sizeofIoRemappingIdTable * n.idMappingCount

/-- `GetSizeOfNodes` (IortGenerator.c): walk the node list; each node is
indexed at `size-so-far + NodeStartOffset` before its size is added.
Returns the total size of the group together with the indexer entries, in
node order. -/
def getSizeOfNodes {α : Type} (tokenOf : α → Nat) (nodeSize : α → Nat)
    (nodeStartOffset : Nat) : List α → Nat → Nat × List IortNodeIndexerEntry
  | [], size => (size, [])
  | n :: rest, size =>
    let r := getSizeOfNodes tokenOf nodeSize nodeStartOffset rest
      (size + nodeSize n)
    (r.1, { token := tokenOf n, offset := size + nodeStartOffset } :: r.2)

/-- The platform-object repository interface (`CfgMgrGetObjects`): objects
are filed under their cross-reference token; an absent token is
`EFI_NOT_FOUND`. -/
def cfgMgrGetObjects {β : Type} (repo : List (Nat × List β)) (token : Nat) :
    Except EfiStatus (List β) :=
  match repo.lookup token with
  | some objs => .ok objs
  | none => .error .notFound

/-- The abstract platform objects an IORT build consumes.  The
configuration modelled here carries ITS group and root complex nodes (the
claims under proof exercise these two kinds; for the other kinds the
repository holds no objects, so their count-guarded branches in
`BuildIortTable` are skipped). -/
structure IortConfig where
  itsGroups : List CmArmItsGroupNode
  rootComplexes : List CmArmRootComplexNode
  idMappingArrays : List (Nat × List CmArmIdMapping)
  itsIdentifierArrays : List (Nat × List Nat)
  deriving DecidableEq, Repr

/-- `EFI_ACPI_6_0_IO_REMAPPING_ID_TABLE` as emitted: the output reference
token has been resolved to a byte offset. -/
structure IoRemappingIdTable where
  inputBase : Nat
  numIds : Nat
  outputBase : Nat
  outputReference : Nat
  flags : Nat
  deriving DecidableEq, Repr

/-- An emitted ITS group node. -/
structure EmittedItsGroupNode where
  length : Nat
  numItsIdentifiers : Nat
  itsIds : List Nat
  deriving DecidableEq, Repr

/-- An emitted root complex node. -/
structure EmittedRootComplexNode where
  length : Nat
  numIdMappings : Nat
  idReference : Nat
  idMappings : List IoRemappingIdTable
  deriving DecidableEq, Repr

/-- The resolution loop of `AddIdMappingArray`: each id mapping's
`OutputReferenceToken` is resolved through the node indexer; the first
failure aborts with that status. -/
def resolveIdMappings (indexer : List IortNodeIndexerEntry) :
    List CmArmIdMapping → Except EfiStatus (List IoRemappingIdTable)
  | [] => .ok []
  | m :: rest =>
    match getNodeOffsetReferencedByToken indexer m.outputReferenceToken with
    | .error s => .error s
    | .ok off =>
      match resolveIdMappings indexer rest with
      | .error s => .error s
      | .ok tail =>
        .ok ({ inputBase := m.inputBase, numIds := m.numIds,
               outputBase := m.outputBase, outputReference := off,
               flags := m.flags } :: tail)

/-- `AddIdMappingArray` (IortGenerator.c): fetch the mapping array filed
under the token, require at least `idCount` mappings, and resolve the first
`idCount` of them. -/
def addIdMappingArray (indexer : List IortNodeIndexerEntry)
    (repo : List (Nat × List CmArmIdMapping)) (idCount idMappingToken : Nat) :
    Except EfiStatus (List IoRemappingIdTable) :=
  match cfgMgrGetObjects repo idMappingToken with
  | .error s => .error s
  | .ok maps =>
    if maps.length < idCount then .error .notFound
    else resolveIdMappings indexer (maps.take idCount)

/-- `AddItsGroupNodes` (IortGenerator.c): per node, guard the 16-bit node
length, fetch the ITS identifier array, require enough identifiers, and
emit the node. -/
def addItsGroupNodes (repo : List (Nat × List Nat)) :
    List CmArmItsGroupNode → Except EfiStatus (List EmittedItsGroupNode)
  | [] => .ok []
  | n :: rest =>
    let len := getItsGroupNodeSize n
    if len > 65535 then .error .invalidParameter
    else
      match cfgMgrGetObjects repo n.itsIdToken with
      | .error s => .error s
      | .ok ids =>
        if ids.length < n.itsIdCount then .error .notFound
        else
          match addItsGroupNodes repo rest with
          | .error s => .error s
          | .ok tail =>
            .ok ({ length := len, numItsIdentifiers := n.itsIdCount,
                   itsIds := ids.take n.itsIdCount } :: tail)

/-- `AddRootComplexNodes` (IortGenerator.c): per node, guard the 16-bit
node length and, when the node has id mappings under a non-null token,
resolve them through the indexer; the first failure aborts with that
status. -/
def addRootComplexNodes (indexer : List IortNodeIndexerEntry)
    (repo : List (Nat × List CmArmIdMapping)) :
    List CmArmRootComplexNode → Except EfiStatus (List EmittedRootComplexNode)
  | [] => .ok []
  | n :: rest =>
    let len := getRootComplexNodeSize n
    if len > 65535 then .error .invalidParameter
    else
      let mapped :=
        if n.idMappingCount > 0 ∧ n.idMappingToken ≠ 0 then
          addIdMappingArray indexer repo n.idMappingCount n.idMappingToken
        else .ok []
      match mapped with
      | .error s => .error s
      | .ok maps =>
        match addRootComplexNodes indexer repo rest with
        | .error s => .error s
        | .ok tail =>
          .ok ({ length := len, numIdMappings := n.idMappingCount,
                 idReference := sizeofIoRemappingRcNode,
                 idMappings := maps } :: tail)

/-- The sizing pass of `BuildIortTable`, restricted to the node kinds the
configuration carries: ITS groups start right after the table header, root
complexes after the ITS group region.  Returns the table size and the
populated node indexer. -/
def iortSizingPass (cfg : IortConfig) :
    Nat × List IortNodeIndexerEntry :=
  let itsGroupOffset := sizeofIoRemappingTable
  let its := getSizeOfNodes CmArmItsGroupNode.token getItsGroupNodeSize
    itsGroupOffset cfg.itsGroups 0
  let rootComplexOffset := itsGroupOffset + its.1
  let rcs := getSizeOfNodes CmArmRootComplexNode.token getRootComplexNodeSize
    rootComplexOffset cfg.rootComplexes 0
  (rootComplexOffset + rcs.1, its.2 ++ rcs.2)

/-- The emission pass of `BuildIortTable`: add the ITS group nodes, then
the root complex nodes; the first failing step yields its status. -/
def iortEmissionPass (cfg : IortConfig)
    (indexer : List IortNodeIndexerEntry) :
    Except EfiStatus (List EmittedItsGroupNode × List EmittedRootComplexNode) :=
  match addItsGroupNodes cfg.itsIdentifierArrays cfg.itsGroups with
  | .error s => .error s
  | .ok its =>
    match addRootComplexNodes indexer cfg.idMappingArrays
        cfg.rootComplexes with
    | .error s => .error s
    | .ok rcs => .ok (its, rcs)

/-- An assembled IORT table: header bookkeeping plus the emitted nodes. -/
structure IortTable where
  tableSize : Nat
  numNodes : Nat
  nodeOffset : Nat
  itsNodes : List EmittedItsGroupNode
  rcNodes : List EmittedRootComplexNode
  deriving DecidableEq, Repr

/-- Outcome of `BuildIortTable`: the returned status, the table handed to
the caller (`*Table`, `none` when no table is returned), and whether the
generator freed the partially built buffer (the `error_handler` path frees
both the node indexer and the table buffer; on success ownership moves to
the caller). -/
structure IortBuildResult where
  status : EfiStatus
  table : Option IortTable
  freed : Bool
  deriving DecidableEq, Repr

/-- `BuildIortTable` (IortGenerator.c), for a configuration carrying ITS
group and root complex nodes: run the sizing pass (which populates the
node indexer), allocate, write the header, then emit each node kind; a
failing step branches to `error_handler`, which frees the buffer and
returns the failure with `*Table` still NULL. -/
def buildIortTable (cfg : IortConfig) : IortBuildResult :=
  match iortEmissionPass cfg (iortSizingPass cfg).2 with
  | .error s => { status := s, table := none, freed := true }
  | .ok nodes =>
    { status := .success,
      table := some
        { tableSize := (iortSizingPass cfg).1,
          numNodes := cfg.itsGroups.length + cfg.rootComplexes.length,
          nodeOffset := sizeofIoRemappingTable,
          itsNodes := nodes.1,
          rcNodes := nodes.2 },
      freed := false }

/-! ## Concrete inputs used by the witnesses and counterexamples -/

/-- Little-endian bytes of a UINT32 value. -/
def u32bytes (n : Nat) : List Nat :=
  [n % 256, n / 256 % 256, n / 65536 % 256, n / 16777216 % 256]

/-- A 44-byte MADT header ("APIC", the given length, revision 5, all other
header bytes zero, local interrupt controller address and flags zero). -/
def madtHeaderBytes (len : Nat) : List Nat :=
  [0x41, 0x50, 0x49, 0x43] ++ u32bytes len ++ [5, 0] ++
    List.replicate 26 0 ++ u32bytes 0 ++ u32bytes 0

/-- An 80-byte GICC structure (type 0x0B) with the given CPU interface
number and ACPI processor UID, every other field zero. -/
def giccBytes (cpuIfNum uid : Nat) : List Nat :=
  [11, 80, 0, 0] ++ u32bytes cpuIfNum ++ u32bytes uid ++ List.replicate 68 0

/-- A 24-byte GICD structure (type 0x0C), all body fields zero. -/
def gicdBytes : List Nat :=
  [12, 24, 0, 0] ++ List.replicate 20 0

/-- C7's failing input: a well-formed 204-byte MADT holding two GICCs whose
ACPI processor UIDs are both 7 while their CPU interface numbers differ. -/
def madtTwoGiccSameUid : List Nat :=
  madtHeaderBytes 204 ++ giccBytes 0 7 ++ giccBytes 1 7

/-- C8's counterexample input: a 93-byte MADT holding two GICDs followed by
a single stray byte, so the sub-structure iteration counts two GICDs and
then aborts on the truncated trailing header. -/
def madtTwoGicdTruncated : List Nat :=
  madtHeaderBytes 93 ++ gicdBytes ++ gicdBytes ++ [0]

/-- A PPTT cross-entry for a 20-byte Processor Hierarchy structure (type 0)
at the given table offset whose `Parent` field holds `parent`. -/
def ppttProcEntry (offset parent : Nat) : AcpiCrossEntry :=
  { buffer := [0, 20, 0, 0] ++ u32bytes 0 ++ u32bytes parent ++
      List.replicate 8 0,
    size := 20, type := 0, offset := offset }

/-- C3's concrete scenario: three Processor Hierarchy nodes whose `Parent`
fields form a 3-cycle (36 → 56 → 76 → 36). -/
def ppttThreeCycle : List AcpiCrossEntry :=
  [ppttProcEntry 36 56, ppttProcEntry 56 76, ppttProcEntry 76 36]

/-- The `GasParser` descriptor array (AcpiParser.c): the five fields of the
ACPI Generic Address Structure. -/
def gasFields : List AcpiParserField := [
  ⟨some "Address Space ID", 1, 0, some "0x%x", none, none, none⟩,
  ⟨some "Register Bit Width", 1, 1, some "0x%x", none, none, none⟩,
  ⟨some "Register Bit Offset", 1, 2, some "0x%x", none, none, none⟩,
  ⟨some "Address Size", 1, 3, some "0x%x", none, none, none⟩,
  ⟨some "Address", 8, 4, some "0x%lx", none, none, none⟩]

/-- The state at the start of an inspector run: indent zero, no capture
slot written, empty log. -/
def emptyParserState : ParserState :=
  { gIndent := 0, slots := [], events := [] }

/-- Whether an event is a `cross`-kind error report. -/
def Event.isCrossErr : Event → Bool
  | .err .cross _ _ _ => true
  | _ => false

/-- Whether an event is a `cross` error naming the "ACPI Processor UID"
field (the report claim C7 expects). -/
def isUidDupCross (e : Event) : Bool :=
  match e with
  | .err .cross _ _ strArgs => strArgs.contains "ACPI Processor UID"
  | _ => false

/-- Concrete IORT input: one ITS group (token 1, two ITS ids) and one root
complex (token 2) whose single id mapping targets token 1 (scenario 6 of
the spec). -/
def itsGroupOne : CmArmItsGroupNode :=
  { token := 1, itsIdCount := 2, itsIdToken := 5 }

def rootComplexTwo : CmArmRootComplexNode :=
  { token := 2, idMappingCount := 1, idMappingToken := 6, cacheCoherent := 1,
    allocationHints := 0, memoryAccessFlags := 0, atsAttribute := 0,
    pciSegmentNumber := 0, memoryAddressSize := 32 }

def idMapToIts : CmArmIdMapping :=
  { inputBase := 0, numIds := 255, outputBase := 0,
    outputReferenceToken := 1, flags := 0 }

/-- The same input with the id mapping referencing token 99, which no node
carries. -/
def idMapDangling : CmArmIdMapping :=
  { idMapToIts with outputReferenceToken := 99 }

def iortConfigOk : IortConfig :=
  { itsGroups := [itsGroupOne], rootComplexes := [rootComplexTwo],
    idMappingArrays := [(6, [idMapToIts])],
    itsIdentifierArrays := [(5, [1, 2])] }

def iortConfigMissingToken : IortConfig :=
  { iortConfigOk with idMappingArrays := [(6, [idMapDangling])] }

/-- Minimal concrete generator identity / table info / configuration
manager info, for exercising `addAcpiHeader`. -/
def genInfoZero : AcpiTableGeneratorInfo :=
  { acpiTableSignature := 0, creatorId := 0, creatorRevision := 0 }

def tableInfoZero : CmStdObjAcpiTableInfo :=
  { acpiTableRevision := 0, oemTableId := 0, oemRevision := 0 }

def cfgMgrInfoZero : CfgMgrInfo :=
  { oemId := [0, 0, 0, 0, 0, 0], revision := 0 }

/-- A well-formed 92-byte MADT holding exactly two GICDs. -/
def madtTwoGicd : List Nat := madtHeaderBytes 92 ++ gicdBytes ++ gicdBytes

/-- A one-entry reference list used to exhibit C6's stuck loop. -/
def stuckEntry : AcpiCrossEntry :=
  { buffer := [], size := 0, type := 0, offset := 10 }

/-- A minimal validity matrix for exercising `acpiCrossValidatorRefsValid`. -/
def oneTypeRefs : AcpiValidRefs :=
  { isValid := [true], typeCount := 1, name := "r" }

/-! # Theorems -/

/-! ## Helper lemmas -/

theorem parseAcpiLoop_fst (trace cc : Bool) (nm : Option String)
    (tbl : List Nat) (pos bufLen : Nat) :
    ∀ (fields : List AcpiParserField) (off : Nat) (st : ParserState),
      off + (fields.map (fun f => f.length)).sum < u32 →
      (parseAcpiLoop trace cc nm tbl pos bufLen fields off st).1
        = off + (fittingLengths bufLen fields off).sum := by
  intro fields
  induction fields with
  | nil => intro off st _; simp [parseAcpiLoop, fittingLengths]
  | cons f rest ih =>
    intro off st hsum
    simp only [List.map_cons, List.sum_cons] at hsum
    have hlt : off + f.length < u32 := by omega
    have hmod : (off + f.length) % u32 = off + f.length :=
      Nat.mod_eq_of_lt hlt
    by_cases hfit : off + f.length ≤ bufLen
    · have hcond : ¬ ((off + f.length) % u32 > bufLen) := by omega
      simp only [parseAcpiLoop, hcond, if_false, fittingLengths, hfit,
        if_true, List.sum_cons]
      rw [hmod, ih (off + f.length) _ (by omega)]
      omega
    · have hcond : (off + f.length) % u32 > bufLen := by omega
      simp only [parseAcpiLoop, hcond, if_true, fittingLengths, hfit,
        if_false]
      exact ih off _ (by omega)

theorem allUniqueInner_spec
    (cmp : AcpiCrossEntry → AcpiCrossEntry → Int) (sn fn : String)
    (a : AcpiCrossEntry) (l : List AcpiCrossEntry) :
    allUniqueInner cmp sn fn a l
      = ((l.filter (fun b => cmp a b = 0)).isEmpty,
         (l.filter (fun b => cmp a b = 0)).map (dupCrossErr sn fn a)) := by
  induction l with
  | nil => simp [allUniqueInner]
  | cons b rest ih =>
    by_cases h : cmp a b = 0
    · simp [allUniqueInner, ih, h, List.filter_cons]
    · simp [allUniqueInner, ih, h, List.filter_cons]

theorem allPairs_cons (a : AcpiCrossEntry) (rest : List AcpiCrossEntry) :
    allPairs (a :: rest) = rest.map (fun b => (a, b)) ++ allPairs rest := rfl

theorem duplicatePairs_cons
    (cmp : AcpiCrossEntry → AcpiCrossEntry → Int) (a : AcpiCrossEntry)
    (rest : List AcpiCrossEntry) :
    duplicatePairs cmp (a :: rest)
      = (rest.filter (fun b => cmp a b = 0)).map (fun b => (a, b))
          ++ duplicatePairs cmp rest := by
  simp only [duplicatePairs, allPairs_cons, List.filter_append,
    List.filter_map]
  rfl

/-! ## C1: bytes consumed by the generic field parser -/

/-- C1.  For every call to `ParseAcpi` with a non-zero buffer length (and
arithmetic below the UINT32 wrap line), the returned byte count equals the
sum of the declared lengths of exactly those descriptors whose full byte
range - cumulative offset plus declared length - lies within the buffer
length; descriptors whose range extends past the buffer contribute
nothing. -/
theorem parseAcpi_bytes_consumed (trace cc : Bool) (indent : Nat)
    (nm : Option String) (tbl : List Nat) (pos bufLen : Nat)
    (fields : List AcpiParserField) (st : ParserState)
    (hlen : bufLen ≠ 0)
    (hsum : (fields.map (fun f => f.length)).sum < u32) :
    (parseAcpi trace cc indent nm tbl pos bufLen fields st).1
      = (fittingLengths bufLen fields 0).sum := by
  unfold parseAcpi
  simp only [hlen, if_false]
  rw [parseAcpiLoop_fst trace cc nm tbl pos bufLen fields 0]
  · exact Nat.zero_add _
  · simpa using hsum

/-- Witness for C1: the GAS descriptor table against a 6-byte buffer; the
first four one-byte fields fit, the trailing 8-byte `Address` does not. -/
theorem parseAcpi_bytes_consumed_witness :
    (parseAcpi true true 2 none (List.replicate 12 0) 0 6 gasFields
        emptyParserState).1
      = (fittingLengths 6 gasFields 0).sum :=
  parseAcpi_bytes_consumed true true 2 none (List.replicate 12 0) 0 6
    gasFields emptyParserState (by decide) (by decide)

/-! ## C10: zero-length buffer handling -/

/-- C10.  `ParseAcpi` on a zero-length buffer emits exactly one warning and
returns 0 bytes consumed, with no other effect: the capture slots, the
process-wide indent counter and the rest of the log are untouched. -/
theorem parseAcpi_zero_length (trace cc : Bool) (indent : Nat)
    (nm : Option String) (tbl : List Nat) (pos : Nat)
    (fields : List AcpiParserField) (st : ParserState) :
    parseAcpi trace cc indent nm tbl pos 0 fields st
      = (0, { st with
              events := st.events ++
                [Event.log .warn "Will not parse zero-length buffer" [pos]
                  [nm.getD "Unknown Item"]] }) := by
  simp [parseAcpi]

/-! ## C2: the uniqueness check -/

/-- C2.  `AcpiCrossValidatorAllUnique` compares every unordered pair of
entries: the emitted reports are exactly one `cross` error per pair the
comparator reports equal, each carrying both entries' offsets (so a list
with m duplicate pairs yields m - in particular at least m - cross
errors), and the function returns TRUE iff no pair compares equal. -/
theorem allUnique_reports_every_duplicate_pair (l : List AcpiCrossEntry)
    (cmp : AcpiCrossEntry → AcpiCrossEntry → Int) (sn fn : String) :
    (acpiCrossValidatorAllUnique l cmp sn fn).2
        = (duplicatePairs cmp l).map (fun p => dupCrossErr sn fn p.1 p.2)
      ∧ ((acpiCrossValidatorAllUnique l cmp sn fn).1 = true
        ↔ duplicatePairs cmp l = []) := by
  induction l with
  | nil => simp [acpiCrossValidatorAllUnique, duplicatePairs, allPairs]
  | cons a rest ih =>
    constructor
    · simp only [acpiCrossValidatorAllUnique, allUniqueInner_spec,
        duplicatePairs_cons, List.map_append, ih.1]
      simp [List.map_map, Function.comp]
    · simp only [acpiCrossValidatorAllUnique, allUniqueInner_spec,
        duplicatePairs_cons, Bool.and_eq_true, List.isEmpty_iff, ih.2,
        List.append_eq_nil, List.map_eq_nil_iff]

/-! ## C6: the non-advancing search loop of RefsValid -/

theorem refsValidLoop_stuck (vr : AcpiValidRefs)
    (fromOffset toOffset fromType : Nat) (e : AcpiCrossEntry)
    (hne : e.offset ≠ toOffset) :
    ∀ fuel, refsValidLoop vr fromOffset toOffset fromType e fuel = none := by
  intro fuel
  induction fuel with
  | zero => rfl
  | succ n ih => simp [refsValidLoop, hne, ih]

/-- C6.  The entry-search loop of `AcpiCrossValidatorRefsValid` never
advances its iterator: with a valid `FromType`, `FromOffset ≠ ToOffset` and
a non-empty list whose first entry does not match `ToOffset`, no amount of
fuel makes the function terminate; it terminates (for any positive fuel)
exactly in the remaining cases - first entry matches, `FromType` out of
range, self-reference, or empty list. -/
theorem refsValid_terminates_only_on_first_match :
    (∀ (fuel : Nat) (l : List AcpiCrossEntry) (vr : AcpiValidRefs)
        (fromOff toOff fromType : Nat) (e : AcpiCrossEntry),
        l.head? = some e → fromType < vr.typeCount → fromOff ≠ toOff →
        e.offset ≠ toOff →
        acpiCrossValidatorRefsValid fuel l vr fromOff toOff fromType = none)
    ∧ (∀ (fuel : Nat) (l : List AcpiCrossEntry) (vr : AcpiValidRefs)
        (fromOff toOff fromType : Nat) (e : AcpiCrossEntry),
        0 < fuel → l.head? = some e → e.offset = toOff →
        (acpiCrossValidatorRefsValid fuel l vr fromOff toOff fromType).isSome)
    ∧ (∀ (fuel : Nat) (l : List AcpiCrossEntry) (vr : AcpiValidRefs)
        (fromOff toOff fromType : Nat),
        vr.typeCount ≤ fromType ∨ fromOff = toOff ∨ l = [] →
        (acpiCrossValidatorRefsValid fuel l vr fromOff toOff fromType).isSome) := by
  refine ⟨?_, ?_, ?_⟩
  · intro fuel l vr fromOff toOff fromType e hh ht hs hne
    have hts : ¬ vr.typeCount ≤ fromType := by omega
    simp [acpiCrossValidatorRefsValid, hts, hs, hh,
      refsValidLoop_stuck vr fromOff toOff fromType e hne]
  · intro fuel l vr fromOff toOff fromType e hf hh hm
    by_cases hts : vr.typeCount ≤ fromType
    · simp [acpiCrossValidatorRefsValid, hts]
    · by_cases hs : fromOff = toOff
      · simp [acpiCrossValidatorRefsValid, hts, hs]
      · rcases fuel with _ | n
        · omega
        · simp [acpiCrossValidatorRefsValid, hts, hs, hh, refsValidLoop, hm]
  · intro fuel l vr fromOff toOff fromType h
    rcases h with h | h | h
    · simp [acpiCrossValidatorRefsValid, h]
    · by_cases hts : vr.typeCount ≤ fromType
      · simp [acpiCrossValidatorRefsValid, hts]
      · simp [acpiCrossValidatorRefsValid, hts, h]
    · by_cases hts : vr.typeCount ≤ fromType
      · simp [acpiCrossValidatorRefsValid, hts]
      · by_cases hs : fromOff = toOff
        · simp [acpiCrossValidatorRefsValid, hts, hs]
        · simp [acpiCrossValidatorRefsValid, hts, hs, h]

/-- Witness for C6: with first entry at offset 10 and a reference to offset
20, even 1000 fuel steps do not finish; the same call referencing offset 10
finishes at once. -/
theorem refsValid_terminates_only_on_first_match_witness :
    acpiCrossValidatorRefsValid 1000 [stuckEntry] oneTypeRefs 1 20 0 = none
    ∧ (acpiCrossValidatorRefsValid 1000 [stuckEntry] oneTypeRefs
        1 10 0).isSome :=
  ⟨refsValid_terminates_only_on_first_match.1 1000 [stuckEntry] oneTypeRefs
      1 20 0 stuckEntry (by decide) (by decide) (by decide) (by decide),
    refsValid_terminates_only_on_first_match.2.1 1000 [stuckEntry]
      oneTypeRefs 1 10 0 stuckEntry (by decide) (by decide) (by decide)⟩

/-! ## C3: PPTT reference-chain cycle detection -/

theorem cycleLoop_eq_chainSeq (l : List AcpiCrossEntry) :
    ∀ (n : Nat) (cur : AcpiCrossEntry),
      cycleLoop l n cur = (chainSeq l n cur).isSome := by
  intro n
  induction n with
  | zero => intro cur; rfl
  | succ m ih =>
    intro cur
    simp only [cycleLoop, chainSeq]
    cases chainStep l cur with
    | none => rfl
    | some nxt => exact ih nxt

/-- C3.  For a non-zero `Parent` / `Next Level of Cache` reference that
resolves to a structure of the referring type and is not a leaf processor
node, `ValidateReference` follows the reference chain for at most
n = `refList.length` hops; exactly one `Reference loop detected` cross
error is emitted iff the chain has not fallen off the indexed set (reached
a structure referencing nothing) within those n hops. -/
theorem validateReference_cycle_detection (curType reference : Nat)
    (refList : List AcpiCrossEntry) (e : AcpiCrossEntry)
    (h0 : reference ≠ 0)
    (hf : findRefEntry refList reference = some e)
    (ht : entryBufType e = curType)
    (hl : ¬ (entryBufType e = 0 ∧ entryNodeIsALeaf e)) :
    validateReference curType reference refList
      = if (chainSeq refList refList.length e).isSome then [loopDetectedErr]
        else [] := by
  have hor : (findRefEntry refList reference).or refList.getLast? = some e := by
    rw [hf]; rfl
  have hnn : (findRefEntry refList reference).isNone = false := by
    rw [hf]; rfl
  simp only [validateReference, if_neg h0, hor, hnn, Bool.false_eq_true,
    if_false, List.nil_append]
  rw [if_neg (by simp [ht]), if_neg hl, cycleLoop_eq_chainSeq]

/-- Witness for C3: three Processor Hierarchy nodes whose `Parent` fields
form a 3-cycle produce exactly the `Reference loop detected` error. -/
theorem validateReference_cycle_detection_witness :
    validateReference 0 56 ppttThreeCycle = [loopDetectedErr] :=
  (validateReference_cycle_detection 0 56 ppttThreeCycle
      (ppttProcEntry 56 76) (by decide) (by decide) (by decide)
      (by decide)).trans (by decide)

/-! ## C5: checksum of a generated table -/

/-- C5.  The generator's header helper writes the checksum field as zero,
and once the installer (modelled from the spec, see
`installerWriteChecksum`) writes the checksum byte, the byte-sum mod 256 of
the entire buffer is zero: `VerifyChecksum` accepts the buffer. -/
theorem generated_table_checksum (gen : AcpiTableGeneratorInfo)
    (info : CmStdObjAcpiTableInfo) (cfg : CfgMgrInfo) (len : Nat)
    (log : Bool) (tbl : List Nat) (h9 : 9 < tbl.length) :
    (addAcpiHeader gen info cfg len).checksum = 0
    ∧ (verifyChecksum log (installerWriteChecksum tbl)
        (installerWriteChecksum tbl).length).1 = true := by
  refine ⟨rfl, ?_⟩
  unfold verifyChecksum installerWriteChecksum
  simp only [List.take_length]
  have hz := List.sum_set tbl 9 0
  have hc := List.sum_set tbl 9 ((256 - (tbl.set 9 0).sum % 256) % 256)
  simp only [if_pos h9] at hz hc
  simp only [decide_eq_true_eq]
  omega

/-- Witness for C5: the installer-completed checksum verifies on a concrete
44-byte header buffer. -/
theorem generated_table_checksum_witness :
    (addAcpiHeader genInfoZero tableInfoZero cfgMgrInfoZero 44).checksum = 0
    ∧ (verifyChecksum true (installerWriteChecksum (madtHeaderBytes 44))
        (installerWriteChecksum (madtHeaderBytes 44)).length).1 = true :=
  generated_table_checksum genInfoZero tableInfoZero cfgMgrInfoZero 44 true
    (madtHeaderBytes 44) (by decide)

/-! ## C9: architecture-compatibility count validation -/

theorem validateCountsLoop_spec (buildMask : Nat) (db : AcpiStructDatabase) :
    ∀ (l : List AcpiStructInfo) (t : Nat), l = db.entries.drop t →
      (validateCountsLoop buildMask db t l).2
        = (List.range' t l.length).filterMap (fun i =>
            let e := db.entries.getD i default
            if isAcpiStructTypeValid buildMask i db then
              some (Event.log .info "instance count" [e.count] [e.name])
            else if e.count > 0 then
              some (Event.err .value
                "Structure is not valid for the target architecture"
                [e.count] [e.name])
            else none)
      ∧ ((validateCountsLoop buildMask db t l).1 = true ↔
          ∀ i, t ≤ i → i < db.entries.length →
            ¬ isAcpiStructTypeValid buildMask i db →
            (db.entries.getD i default).count = 0) := by
  intro l
  induction l with
  | nil =>
    intro t hdrop
    have hlen : db.entries.length ≤ t := by
      have h1 := congrArg List.length hdrop
      simp only [List.length_nil, List.length_drop] at h1
      omega
    refine ⟨by simp [validateCountsLoop], ?_⟩
    constructor
    · intro _ i h1 h2 h3; omega
    · intro _; rfl
  | cons e rest ih =>
    intro t hdrop
    have hlt : t < db.entries.length := by
      have h1 := congrArg List.length hdrop
      simp only [List.length_cons, List.length_drop] at h1
      omega
    have he : db.entries.getD t default = e := by
      have h1 : (db.entries.drop t).getD 0 default = e := by
        rw [← hdrop]; rfl
      rwa [List.getD_eq_getElem?_getD, List.getElem?_drop, Nat.add_zero,
        ← List.getD_eq_getElem?_getD] at h1
    have hrest : rest = db.entries.drop (t + 1) := by
      have h1 : (db.entries.drop t).tail = rest := by
        rw [← hdrop]
        simp
      rw [List.tail_drop] at h1
      exact h1.symm
    obtain ⟨ihe, ihv⟩ := ih (t + 1) hrest
    have hrange : List.range' t (e :: rest).length
        = t :: List.range' (t + 1) rest.length := by
      simp [List.range'_succ]
    have hsplit : ∀ P : Nat → Prop,
        (∀ i, t ≤ i → i < db.entries.length → P i) ↔
          (P t ∧ ∀ i, t + 1 ≤ i → i < db.entries.length → P i) := by
      intro P
      constructor
      · exact fun h => ⟨h t le_rfl hlt, fun i h1 h2 => h i (by omega) h2⟩
      · rintro ⟨h0, h⟩ i h1 h2
        rcases Nat.eq_or_lt_of_le h1 with rfl | h3
        · exact h0
        · exact h i (by omega) h2
    rw [hrange]
    cases hv : isAcpiStructTypeValid buildMask t db with
    | true =>
      refine ⟨?_, ?_⟩
      · simp only [validateCountsLoop, hv, eq_self_iff_true, if_true,
          List.filterMap_cons, ihe, he]
      · simp only [validateCountsLoop, hv, eq_self_iff_true, if_true, ihv,
          hsplit]
        simp [hv]
    | false =>
      cases hcnt : decide (e.count > 0) with
      | true =>
        have hcnt' : e.count > 0 := of_decide_eq_true hcnt
        refine ⟨?_, ?_⟩
        · simp only [validateCountsLoop, hv, Bool.false_eq_true, if_false,
            List.filterMap_cons, he, if_pos hcnt', ihe]
        · simp only [validateCountsLoop, hv, Bool.false_eq_true, if_false,
            if_pos hcnt', hsplit]
          constructor
          · intro h; exact absurd h (by simp)
          · intro h
            rw [he] at h
            have h2 := h.1 (by simp [hv])
            omega
      | false =>
        have hcnt' : ¬ e.count > 0 := of_decide_eq_false hcnt
        refine ⟨?_, ?_⟩
        · simp only [validateCountsLoop, hv, Bool.false_eq_true, if_false,
            List.filterMap_cons, he, if_neg hcnt', ihe]
        · simp only [validateCountsLoop, hv, Bool.false_eq_true, if_false,
            if_neg hcnt', ihv, hsplit]
          have hPt : (¬ isAcpiStructTypeValid buildMask t db = true →
              (db.entries.getD t default).count = 0) := by
            intro _
            rw [he]
            omega
          simp [hPt]
          intro _
          rw [← List.getD_eq_getElem?_getD, he]
          omega

/-- C9.  `ValidateAcpiStructCounts` reports, after the breakdown header,
exactly one line per type tag: the instance count unconditionally for a
type compatible with the build's architecture set, a `value` error stating
the structure is not valid for the target architecture for an incompatible
type with a non-zero count, and nothing for an incompatible type with a
zero count; it returns success iff every incompatible type has count
zero. -/
theorem validateStructCounts_arch_compat (buildMask : Nat)
    (db : AcpiStructDatabase) :
    (validateAcpiStructCounts buildMask db).2
      = Event.log .info "Table Breakdown" [] [] ::
          (List.range' 0 db.entries.length).filterMap (fun i =>
            let e := db.entries.getD i default
            if isAcpiStructTypeValid buildMask i db then
              some (Event.log .info "instance count" [e.count] [e.name])
            else if e.count > 0 then
              some (Event.err .value
                "Structure is not valid for the target architecture"
                [e.count] [e.name])
            else none)
    ∧ ((validateAcpiStructCounts buildMask db).1 = true ↔
        ∀ i, i < db.entries.length →
          ¬ isAcpiStructTypeValid buildMask i db →
          (db.entries.getD i default).count = 0) := by
  obtain ⟨he, hv⟩ := validateCountsLoop_spec buildMask db db.entries 0
    (by simp)
  refine ⟨?_, ?_⟩
  · simp only [validateAcpiStructCounts, he]
  · simp only [validateAcpiStructCounts, hv]
    constructor
    · intro h i h2 h3; exact h i (Nat.zero_le i) h2 h3
    · intro h i _ h2 h3; exact h i h2 h3

/-! ## C4: token-to-offset resolution in the IORT generator -/

/-- C4.  (i) Resolving a token that no node indexer entry carries returns
the `not-found` failure.  (ii) When an emission step fails, `BuildIortTable`
aborts with that status, frees the partially built table, and returns no
table to the caller.  (iii) Resolving a token that is present (tokens being
distinct) yields exactly the offset the sizing pass recorded for its node:
the region start plus the sizes of the preceding nodes. -/
theorem iort_token_resolution :
    (∀ (idx : List IortNodeIndexerEntry) (tok : Nat),
        (∀ e ∈ idx, e.token ≠ tok) →
        getNodeOffsetReferencedByToken idx tok = .error .notFound)
    ∧ (∀ (cfg : IortConfig) (s : EfiStatus),
        iortEmissionPass cfg (iortSizingPass cfg).2 = .error s →
        buildIortTable cfg = { status := s, table := none, freed := true })
    ∧ (∀ (α : Type) (tokenOf nodeSize : α → Nat) (startOff : Nat)
        (nodes : List α) (size : Nat) (i : Nat) (hi : i < nodes.length),
        nodes.Pairwise (fun a b => tokenOf a ≠ tokenOf b) →
        getNodeOffsetReferencedByToken
            (getSizeOfNodes tokenOf nodeSize startOff nodes size).2
            (tokenOf (nodes.get ⟨i, hi⟩))
          = .ok (startOff + size + ((nodes.take i).map nodeSize).sum)) := by
  refine ⟨?_, ?_, ?_⟩
  · intro idx tok h
    induction idx with
    | nil => rfl
    | cons e rest ih =>
      have hne : e.token ≠ tok := h e (by simp)
      simp only [getNodeOffsetReferencedByToken, if_neg hne]
      exact ih (fun x hx => h x (by simp [hx]))
  · intro cfg s h
    unfold buildIortTable
    rw [h]
  · intro α tokenOf nodeSize startOff nodes
    induction nodes with
    | nil => intro size i hi; exact absurd hi (by simp)
    | cons n rest ih =>
      intro size i hi hpw
      cases i with
      | zero =>
        have hget : (n :: rest).get ⟨0, hi⟩ = n := rfl
        simp only [getSizeOfNodes, hget, getNodeOffsetReferencedByToken,
          if_pos rfl, if_true, eq_self_iff_true, List.take_zero,
          List.map_nil, List.sum_nil, Nat.add_zero]
        congr 1
        omega
      | succ j =>
        have hj : j < rest.length := by
          simpa using hi
        have hget : (n :: rest).get ⟨j + 1, hi⟩ = rest.get ⟨j, hj⟩ := rfl
        have hne : tokenOf n ≠ tokenOf (rest.get ⟨j, hj⟩) :=
          (List.pairwise_cons.mp hpw).1 _ (List.get_mem rest j hj)
        simp only [getSizeOfNodes, hget, getNodeOffsetReferencedByToken,
          if_neg hne]
        rw [ih (size + nodeSize n) j hj (List.pairwise_cons.mp hpw).2]
        simp only [List.take_succ_cons, List.map_cons, List.sum_cons]
        congr 1
        omega

/-- Witness for C4: resolving the dangling token 99 fails; building from
the configuration whose root complex id mapping references token 99 aborts
with `not-found`, frees the buffer, and returns no table; resolving the ITS
group's token 1 yields its sizing-pass offset. -/
theorem iort_token_resolution_witness :
    getNodeOffsetReferencedByToken (iortSizingPass iortConfigOk).2 99
        = .error .notFound
    ∧ buildIortTable iortConfigMissingToken
        = { status := .notFound, table := none, freed := true }
    ∧ getNodeOffsetReferencedByToken
        (getSizeOfNodes CmArmItsGroupNode.token getItsGroupNodeSize
          sizeofIoRemappingTable [itsGroupOne] 0).2 (itsGroupOne.token)
        = .ok (sizeofIoRemappingTable + 0 +
            (([itsGroupOne].take 0).map getItsGroupNodeSize).sum) :=
  ⟨iort_token_resolution.1 (iortSizingPass iortConfigOk).2 99 (by decide),
    iort_token_resolution.2.1 iortConfigMissingToken .notFound (by rfl),
    by
      have h := iort_token_resolution.2.2 CmArmItsGroupNode
        CmArmItsGroupNode.token getItsGroupNodeSize sizeofIoRemappingTable
        [itsGroupOne] 0 0 (by decide) (by simp)
      simpa using h⟩

/-! ## Count-preservation lemmas for the GICD cardinality error -/

theorem count_gicd_of_forall_ne (l : List Event)
    (h : ∀ e ∈ l, e ≠ gicdOnlyOneErr) : l.count gicdOnlyOneErr = 0 := by
  rw [List.count_eq_zero]
  intro hm
  exact h _ hm rfl

theorem dumpAndValidate_count_gicd (cc : Bool) (f : AcpiParserField)
    (tbl : List Nat) (pos : Nat) :
    (dumpAndValidate cc f tbl pos).count gicdOnlyOneErr = 0 := by
  rw [List.count_eq_zero]
  intro hm
  obtain ⟨ns, ln, off, fmt, pf, ip, fv⟩ := f
  rcases pf with _ | fid <;> rcases fmt with _ | fs <;>
    rcases fv with _ | vid <;>
    by_cases hl : (ln = 1 ∨ ln = 2 ∨ ln = 4 ∨ ln = 8) <;>
    by_cases hcc : cc = true <;>
    simp [dumpAndValidate, hl, hcc, gicdOnlyOneErr] at hm

theorem parseAcpiLoop_count_gicd (trace cc : Bool) (nm : Option String)
    (tbl : List Nat) (pos bufLen : Nat) :
    ∀ (fields : List AcpiParserField) (off : Nat) (st : ParserState),
      (parseAcpiLoop trace cc nm tbl pos bufLen fields
          off st).2.events.count gicdOnlyOneErr
        = st.events.count gicdOnlyOneErr := by
  intro fields
  induction fields with
  | nil => intro off st; rfl
  | cons f rest ih =>
    intro off st
    simp only [parseAcpiLoop]
    split
    · rcases f.itemPtr with _ | s <;> exact ih off _
    · rcases f.itemPtr with _ | s <;>
      · rw [ih]
        simp only [List.count_append, List.append_assoc]
        have h1 : (if cc = true ∧ off ≠ f.offset then
            [Event.err .parse "Offset Mismatch" [off, f.offset]
              [nm.getD "", f.nameStr.getD ""]]
            else []).count gicdOnlyOneErr = 0 := by
          split
          · exact count_gicd_of_forall_ne _ (by simp [gicdOnlyOneErr])
          · rfl
        have h2 : (if trace = true then dumpAndValidate cc f tbl (pos + off)
            else []).count gicdOnlyOneErr = 0 := by
          split
          · exact dumpAndValidate_count_gicd cc f tbl (pos + off)
          · rfl
        omega

theorem parseAcpi_count_gicd (trace cc : Bool) (indent : Nat)
    (nm : Option String) (tbl : List Nat) (pos bufLen : Nat)
    (fields : List AcpiParserField) (st : ParserState) :
    (parseAcpi trace cc indent nm tbl pos bufLen fields
        st).2.events.count gicdOnlyOneErr
      = st.events.count gicdOnlyOneErr := by
  unfold parseAcpi
  split
  · simp only [List.count_append]
    have h1 : ([Event.log .warn "Will not parse zero-length buffer" [pos]
        [nm.getD "Unknown Item"]]).count gicdOnlyOneErr = 0 :=
      count_gicd_of_forall_ne _ (by simp [gicdOnlyOneErr])
    omega
  · rw [parseAcpiLoop_count_gicd]
    split
    · simp only [List.count_append]
      have h1 : ([Event.log .item "TableName" [] [nm.getD ""]]).count
          gicdOnlyOneErr = 0 :=
        count_gicd_of_forall_ne _ (by simp [gicdOnlyOneErr])
      omega
    · rfl

theorem parseAcpiStruct_count_gicd (cc : Bool) (indent : Nat)
    (tbl : List Nat) (db : AcpiStructDatabase) (offset type length : Nat)
    (st : ParserState) :
    (parseAcpiStruct cc indent tbl db offset type length
        st).2.2.events.count gicdOnlyOneErr
      = st.events.count gicdOnlyOneErr := by
  simp only [parseAcpiStruct]
  have hitem : ∀ (c o : Nat) (n : String),
      ([Event.log .item "StructItem" [c, o] [n]]).count gicdOnlyOneErr = 0 :=
    fun c o n => count_gicd_of_forall_ne _ (by simp [gicdOnlyOneErr])
  split
  · simp only [List.count_append]
    have h1 : ([Event.err .value "Unknown structure type" [type]
        [db.name]]).count gicdOnlyOneErr = 0 :=
      count_gicd_of_forall_ne _ (by simp [gicdOnlyOneErr])
    omega
  · split
    next fid heq =>
      simp only [List.count_append]
      have h2 : ([Event.validatorRun fid offset]).count gicdOnlyOneErr = 0 :=
        count_gicd_of_forall_ne _ (by simp [gicdOnlyOneErr])
      rw [h2, hitem]
      omega
    next fields2 heq =>
      rw [parseAcpi_count_gicd]
      simp only [List.count_append, hitem]
      omega
    next heq =>
      simp only [List.count_append]
      have h3 : ([Event.log .fatalKind
          "Parsing of Structure is not implemented" []
          [(db.entries.getD type default).name]]).count gicdOnlyOneErr = 0 :=
        count_gicd_of_forall_ne _ (by simp [gicdOnlyOneErr])
      rw [hitem, h3]
      omega

theorem madtLoop_count_gicd (cc : Bool) (tbl : List Nat) (tableLen : Nat) :
    ∀ (fuel offset : Nat) (db : AcpiStructDatabase) (st : ParserState),
      (madtLoop cc tbl tableLen fuel offset db
          st).2.1.events.count gicdOnlyOneErr
        = st.events.count gicdOnlyOneErr := by
  intro fuel
  induction fuel with
  | zero => intro offset db st; rfl
  | succ n ih =>
    intro offset db st
    simp only [madtLoop]
    split
    · rfl
    · split
      · split
        · simp only [List.count_append]
          rw [parseAcpi_count_gicd]
          have h1 : ∀ (o s : Nat),
              ([memberIntegrityErr o s]).count gicdOnlyOneErr = 0 :=
            fun o s => count_gicd_of_forall_ne _
              (by simp [gicdOnlyOneErr, memberIntegrityErr])
          rw [h1]
          omega
        · rw [ih, parseAcpiStruct_count_gicd, parseAcpi_count_gicd]
      · simp only [List.count_append]
        rw [parseAcpi_count_gicd]
        have h1 : ([Event.err .parse
            "Failed to read the Interrupt Controller Structure header"
            [] []]).count gicdOnlyOneErr = 0 :=
          count_gicd_of_forall_ne _ (by simp [gicdOnlyOneErr])
        rw [h1]
        omega

theorem allUnique_count_gicd (l : List AcpiCrossEntry)
    (cmp : AcpiCrossEntry → AcpiCrossEntry → Int) (sn fn : String) :
    (acpiCrossValidatorAllUnique l cmp sn fn).2.count gicdOnlyOneErr = 0 := by
  induction l with
  | nil => rfl
  | cons a rest ih =>
    simp only [acpiCrossValidatorAllUnique, allUniqueInner_spec,
      List.count_append, ih, Nat.add_zero]
    apply count_gicd_of_forall_ne
    intro e he
    rcases List.mem_map.mp he with ⟨b, _, rfl⟩
    simp [dupCrossErr, gicdOnlyOneErr]

theorem vfuCollect_count_gicd (cc : Bool) (tbl : List Nat)
    (tableLen mt fo fs : Nat) :
    ∀ (fuel so : Nat) (st : ParserState) (acc : List AcpiCrossEntry),
      (vfuCollect cc tbl tableLen mt fo fs fuel so st
          acc).2.1.events.count gicdOnlyOneErr
        = st.events.count gicdOnlyOneErr := by
  intro fuel
  induction fuel with
  | zero => intro so st acc; rfl
  | succ n ih =>
    intro so st acc
    simp only [vfuCollect]
    split
    · rfl
    · split
      · rw [ih, parseAcpi_count_gicd]
      · rw [parseAcpi_count_gicd]

theorem validateFieldUnique_count_gicd (cc : Bool) (fuel : Nat)
    (tbl : List Nat) (tableLen so fo fs : Nat) (fn : String)
    (meta : AcpiStructInfo) (st : ParserState) :
    (validateFieldUnique cc fuel tbl tableLen so fo fs fn meta
        st).1.events.count gicdOnlyOneErr
      = st.events.count gicdOnlyOneErr := by
  simp only [validateFieldUnique]
  split
  · simp only [List.count_append]
    rw [vfuCollect_count_gicd, allUnique_count_gicd]
    omega
  · rw [vfuCollect_count_gicd]

theorem validateCountsLoop_count_gicd (buildMask : Nat)
    (db : AcpiStructDatabase) :
    ∀ (l : List AcpiStructInfo) (t : Nat),
      (validateCountsLoop buildMask db t l).2.count gicdOnlyOneErr = 0 := by
  intro l
  induction l with
  | nil => intro t; rfl
  | cons e rest ih =>
    intro t
    simp only [validateCountsLoop]
    split
    · rw [List.count_cons]
      simp only [ih]
      simp [gicdOnlyOneErr]
    · split
      · rw [List.count_cons]
        simp only [ih]
        simp [gicdOnlyOneErr]
      · exact ih (t + 1)

theorem validateAcpiStructCounts_count_gicd (buildMask : Nat)
    (db : AcpiStructDatabase) :
    (validateAcpiStructCounts buildMask db).2.count gicdOnlyOneErr = 0 := by
  unfold validateAcpiStructCounts
  rw [List.count_cons]
  simp only [validateCountsLoop_count_gicd]
  simp [gicdOnlyOneErr]

theorem madtConsistencyBlock_count_gicd (fuel buildMask : Nat)
    (tbl : List Nat) (tableLen bodyOffset : Nat) (db : AcpiStructDatabase)
    (st : ParserState)
    (hc : (madtConsistencyBlock fuel buildMask tbl tableLen bodyOffset db
        st).2 = .completed) :
    (madtConsistencyBlock fuel buildMask tbl tableLen bodyOffset db
        st).1.events.count gicdOnlyOneErr
      = st.events.count gicdOnlyOneErr
        + (if gicdCount db > 1 then 1 else 0) := by
  simp only [madtConsistencyBlock] at hc ⊢
  split at hc
  · simp at hc
  next h1 =>
    rw [if_neg h1]
    split at hc
    · simp at hc
    next h2 =>
      rw [if_neg h2]
      split at hc
      · simp at hc
      next h3 =>
        rw [if_neg h3]
        by_cases hg : gicdCount db > 1
        · rw [if_pos hg, if_pos hg]
          simp only [List.count_append]
          rw [validateFieldUnique_count_gicd,
            validateFieldUnique_count_gicd, validateFieldUnique_count_gicd,
            List.count_append, validateAcpiStructCounts_count_gicd]
          have hone : ([gicdOnlyOneErr]).count gicdOnlyOneErr = 1 := by simp
          omega
        · rw [if_neg hg, if_neg hg]
          rw [validateFieldUnique_count_gicd,
            validateFieldUnique_count_gicd, validateFieldUnique_count_gicd,
            List.count_append, validateAcpiStructCounts_count_gicd]

/-! ## C7: the ACPI-Processor-UID uniqueness check -/

set_option maxRecDepth 4000

/-- C7 fails on the code.  `madtTwoGiccSameUid` is a well-formed MADT
(trace and consistency on, parse completes) whose two GICCs carry the same
ACPI Processor UID (the 4-byte fields at offsets 52 and 132 coincide), yet
the post-loop validation emits no `cross` error naming "ACPI Processor
UID": the call site of `ValidateFieldUnique` passes `FIELD_SIZE_OF` as the
`FieldOffset` argument and `OFFSET_OF` as `FieldSize`, so the walk samples
the bytes at offset 4 (the CPU Interface Number) instead of the UID at
offset 8, and the differing interface numbers compare unequal. -/
theorem madt_duplicate_uid_unreported :
    leRead madtTwoGiccSameUid 52 4 = leRead madtTwoGiccSameUid 132 4
    ∧ (parseAcpiMadt 300 true true (archCompatARM ||| archCompatAARCH64)
        madtTwoGiccSameUid 204 emptyParserState).outcome = .completed
    ∧ ((parseAcpiMadt 300 true true (archCompatARM ||| archCompatAARCH64)
        madtTwoGiccSameUid 204 emptyParserState).st.events.filter
          isUidDupCross) = [] :=
  ⟨by decide, by decide, by decide⟩

/-! ## C8: the GICD cardinality check -/

/-- Counterexample to C8 as stated: in this truncated MADT the iteration
counts two GICDs and then aborts on a trailing one-byte fragment, and the
cross error "Only one GICD must be present" is never emitted although the
accumulated GICD count exceeds one. -/
theorem madt_gicd_error_skipped :
    gicdCount (parseAcpiMadt 300 true true
        (archCompatARM ||| archCompatAARCH64) madtTwoGicdTruncated 93
        emptyParserState).db = 2
    ∧ (parseAcpiMadt 300 true true (archCompatARM ||| archCompatAARCH64)
        madtTwoGicdTruncated 93 emptyParserState).st.events.count
          gicdOnlyOneErr = 0 :=
  ⟨by decide, by decide⟩

/-- C8 (amended).  For a MADT parse with trace and consistency mode enabled
whose sub-structure iteration and post-loop walks run to completion, the
post-loop validation emits the cross error "Only one GICD must be present"
exactly once iff the GICD instance count accumulated during the iteration
exceeds one, and not at all otherwise. -/
theorem madt_gicd_cardinality (fuel buildMask : Nat) (tbl : List Nat)
    (tableLen : Nat) (st : ParserState)
    (hc : (parseAcpiMadt fuel true true buildMask tbl tableLen st).outcome
        = .completed) :
    (parseAcpiMadt fuel true true buildMask tbl tableLen
        st).st.events.count gicdOnlyOneErr
      = st.events.count gicdOnlyOneErr
        + (if gicdCount (parseAcpiMadt fuel true true buildMask tbl
            tableLen st).db > 1 then 1 else 0) := by
  simp only [parseAcpiMadt, Bool.not_true, Bool.false_eq_true, if_false] at hc ⊢
  split at hc
  next heq =>
    simp only [heq, if_true] at hc ⊢
    rw [madtConsistencyBlock_count_gicd _ _ _ _ _ _ _ hc,
      madtLoop_count_gicd, parseAcpi_count_gicd]
  next o heq =>
    simp only [heq] at hc ⊢
    cases o <;> simp_all

/-- Witness for C8 (amended): a well-formed MADT with two GICDs completes
and yields exactly one "Only one GICD must be present" error. -/
theorem madt_gicd_cardinality_witness :
    (parseAcpiMadt 300 true true (archCompatARM ||| archCompatAARCH64)
        madtTwoGicd 92 emptyParserState).st.events.count gicdOnlyOneErr
      = emptyParserState.events.count gicdOnlyOneErr
        + (if gicdCount (parseAcpiMadt 300 true true
            (archCompatARM ||| archCompatAARCH64) madtTwoGicd 92
            emptyParserState).db > 1 then 1 else 0) :=
  madt_gicd_cardinality 300 (archCompatARM ||| archCompatAARCH64)
    madtTwoGicd 92 emptyParserState (by decide)

end AcpiSpec
